import Mathlib

/-!
# Verification of the insurance-claim risk-assessment pipeline

A shallow embedding, in Lean 4, of the claim-processing pipeline of the
`insurance_agent` package:

* `src/insurance_agent/subagents/fraud_check/agent.py`   (`FraudCheckAgent`)
* `src/insurance_agent/subagents/policy_validation/agent.py` (`PolicyValidationAgent`)
* `src/insurance_agent/subagents/payout_estimator/agent.py`  (`PayoutEstimatorAgent`)
* `src/insurance_agent/agent.py`  (`InsuranceClaimProcessor._process_claim_impl`)

Python floats are modelled by exact rational numbers `ℚ`; `round(x, n)` is
modelled by round-half to nearest on rationals.  Python `datetime` values
parsed with `strptime("%Y-%m-%d")` are modelled by proleptic-Gregorian
calendar dates; `datetime` comparison and subtraction are modelled on day
ordinals (the parsed values all sit at midnight; `datetime.now()` is modelled
by the date of the current instant, with date-vs-now comparisons taken on
ordinals).  Dictionaries are modelled by structures whose fields cover every
key the embedded code reads; a field the code may find absent, unparseable or
falsy is modelled by an explicit sum type.  `uuid`-generated fresh
identifiers are passed in as explicit parameters.
-/

namespace Ins

/-- `min(1.0, x)`: the clamping used after every additive risk update. -/
def min1 (x : ℚ) : ℚ := min 1 x

/-- Python `round(x, n)` on our rational model: round half to nearest of
`x·10^n`, divided back.  (CPython rounds binary floats half-to-even; no
quantity in this development sits on a half-way tie, so the tie-breaking
rule is immaterial.) -/
def pyRound (n : ℕ) (x : ℚ) : ℚ := (round (x * 10 ^ n) : ℤ) / 10 ^ n

/-- Does `n` occur as a contiguous run inside `h`? -/
def listContains (n : List Char) : List Char → Bool
  | [] => n.isEmpty
  | c :: t => n.isPrefixOf (c :: t) || listContains n t

/-- Python substring test `needle in hay` (both already lower-cased where
the source lower-cases). -/
def pyIn (needle hay : String) : Bool := listContains needle.data hay.data

/-- Python `sorted(list(set(l)))` for a list of strings: the deduplicated
set reported in sorted order.  Modelled as insertion sort over `dedup`,
which agrees extensionally (same elements, no duplicates, sorted
ascending, and a sorted duplicate-free list of a given set of elements
is unique). -/
def sortedDedup (l : List String) : List String :=
  List.insertionSort (· ≤ ·) l.dedup

/-- An apostrophe character, used in the suspicious-phrase table. -/
def apos : String := String.singleton (Char.ofNat 39)

/-! ## Calendar dates

`strptime(s, "%Y-%m-%d")` yields a (proleptic-Gregorian) calendar date.
We model a parsed date by its year/month/day triple and define comparison
and subtraction through the day ordinal, exactly as `datetime` does for
values at midnight. -/

/-- A calendar date as parsed by `strptime("%Y-%m-%d")`. -/
structure Date where
  year : ℤ
  month : ℕ
  day : ℕ
deriving DecidableEq, Repr

/-- Days in the months before month `m` of a non-leap year. -/
def daysBeforeMonth (m : ℕ) : ℕ :=
  match m with
  | 1 => 0 | 2 => 31 | 3 => 59 | 4 => 90 | 5 => 120 | 6 => 151
  | 7 => 181 | 8 => 212 | 9 => 243 | 10 => 273 | 11 => 304 | _ => 334

/-- Gregorian leap-year test. -/
def isLeap (y : ℤ) : Bool := (y % 4 == 0 && y % 100 != 0) || y % 400 == 0

/-- The proleptic-Gregorian day ordinal of a date (`date.toordinal` in
Python: 0001-01-01 ↦ 1).  `datetime` comparison and subtraction of parsed
dates coincide with comparison and subtraction of ordinals. -/
def Date.toOrdinal (d : Date) : ℤ :=
  let y := d.year - 1
  365 * y + y / 4 - y / 100 + y / 400
    + (daysBeforeMonth d.month : ℤ)
    + (if 2 < d.month && isLeap d.year then 1 else 0)
    + (d.day : ℤ)

/-- `datetime` strict comparison of two parsed dates. -/
def Date.lt (a b : Date) : Bool := a.toOrdinal < b.toOrdinal

/-- `datetime` non-strict comparison of two parsed dates. -/
def Date.le (a b : Date) : Bool := a.toOrdinal ≤ b.toOrdinal

/-- `(a - b).days` on parsed dates. -/
def Date.sub (a b : Date) : ℤ := a.toOrdinal - b.toOrdinal

/-- Python `date.weekday()`: Monday = 0 … Sunday = 6; ordinal 1
(0001-01-01) is a Monday. -/
def Date.weekday (d : Date) : ℤ := (d.toOrdinal - 1) % 7

/-! ## Raw input model

The pipeline entry point `_process_claim_impl` receives an arbitrary
dictionary.  We model the keys it (and the sub-agents) read.  A numeric
field may be absent, hold a value `float`/`int` can coerce, or hold a value
on which the coercion raises; a date field may be absent (or falsy, i.e.
`None`/`""`), hold an unparseable string, or hold a `YYYY-MM-DD` string. -/

/-- A raw value destined for `float(...)`. -/
inductive NumField where
  | missing
  | bad
  | num (q : ℚ)
deriving DecidableEq, Repr

/-- A raw value destined for `int(...)`.  `bad` stands for a truthy value
on which `int` raises (a falsy one, e.g. `""` or `0`, is routed to `0` by
the `or 0` in the source and is modelled by `num 0`/`missing`). -/
inductive IntField where
  | missing
  | bad
  | num (n : ℤ)
deriving DecidableEq, Repr

/-- A raw date-string field.  `missing` covers an absent key and falsy
values (`None`, `""`); `bad` a truthy string `strptime` rejects. -/
inductive DateField where
  | missing
  | bad
  | good (d : Date)
deriving DecidableEq, Repr

/-- The `vehicle` sub-dictionary (`make`/`model`/`year` keys; a field is
`none`/`missing` when the key is absent). -/
structure VehicleData where
  make : Option String
  model : Option String
  year : IntField
deriving DecidableEq, Repr

/-- The raw claim dictionary handed to `_process_claim_impl`
(`claim_data`).  `vehicle = none` covers an absent key and the falsy `{}`. -/
structure RawClaim where
  claim_id : Option String
  policy_number : Option String
  claim_type : Option String
  claim_amount : NumField
  incident_details : Option String
  supporting_documents : List String
  vehicle : Option VehicleData
  previous_claims : IntField
  incident_date : DateField
  policy_start_date : DateField
deriving DecidableEq, Repr

/-- `ClaimData` (fraud_check/agent.py:16-55) after `from_dict` succeeded. -/
structure ClaimData where
  amount_claimed : ℚ
  incident_details : String
  claim_type : String
  policy_start_date : DateField
  incident_date : DateField
  vehicle : Option VehicleData
  previous_claims : ℤ
  policy_number : Option String
deriving DecidableEq, Repr

/-- `ClaimData.from_dict` (fraud_check/agent.py:28-55) as invoked by the
pipeline: the argument is `fraud_check_data = {"ingested_claim": …,
"claim_data": raw, "vehicle": …}` (agent.py:414-419), so
`data.get('claim_data')` is the raw claim and `data.get('additional_data')`
is `{}`; the top-level `claim_type`/`policy_start_date`/`incident_date`/
`policy_number` keys are absent, so every lookup falls through to the raw
claim.  `float` failure or a negative amount resets the amount to `0.0`
(lines 38-44); `int()` on a truthy non-coercible `previous_claims` raises
out of `from_dict` (line 52), which is the one failure of this function. -/
def fromDict (raw : RawClaim) : Except Unit ClaimData := do
  let amount : ℚ :=
    match raw.claim_amount with
    | .num q => if q < 0 then 0 else q
    | _ => 0
  let prev : ℤ ←
    match raw.previous_claims with
    | .num n => pure n
    | .missing => pure 0
    | .bad => throw ()
  pure
    { amount_claimed := amount
      incident_details := (raw.incident_details).getD ""
      claim_type := ((raw.claim_type).getD "auto").toLower
      policy_start_date := raw.policy_start_date
      incident_date := raw.incident_date
      vehicle := raw.vehicle
      previous_claims := prev
      policy_number := raw.policy_number }

/-! ## FraudCheckAgent: the four sub-checks -/

/-- The accumulating (fraud_indicators, risk_score) state of a check or of
`process` itself. -/
structure FState where
  inds : List String
  rs : ℚ
deriving DecidableEq, Repr

/-- Is the amount a nonzero multiple of 1000 (`amount % 1000 == 0` on a
positive amount)? -/
def mult1000 (q : ℚ) : Bool := (q / 1000).den == 1

/-- Per-claim-type amount thresholds (`claim_limits`, fraud_check/agent.py:98-106). -/
def claimLimits (t : String) : ℚ :=
  if t = "auto" then 15000 else if t = "home" then 50000
  else if t = "health" then 100000 else if t = "jewelry" then 10000
  else if t = "theft" then 25000 else if t = "vandalism" then 15000
  else 25000

/-- `base_values` make/model table of `_check_vehicle_value`
(fraud_check/agent.py:147-173); unknown make or model falls to 25000. -/
def vehicleBaseValue (make modelName : String) : ℚ :=
  if make = "toyota" then
    if modelName = "camry" then 25000 else if modelName = "corolla" then 22000
    else if modelName = "rav4" then 28000 else if modelName = "highlander" then 35000
    else if modelName = "tacoma" then 32000 else 25000
  else if make = "honda" then
    if modelName = "civic" then 23000 else if modelName = "accord" then 28000
    else if modelName = "crv" then 30000 else if modelName = "pilot" then 38000
    else if modelName = "odyssey" then 36000 else 25000
  else if make = "bmw" then
    if modelName = "3 series" then 45000 else if modelName = "5 series" then 55000
    else if modelName = "x3" then 48000 else if modelName = "x5" then 60000
    else if modelName = "x7" then 75000 else 25000
  else if make = "mercedes" then
    if modelName = "c-class" then 45000 else if modelName = "e-class" then 55000
    else if modelName = "s-class" then 110000 else if modelName = "gle" then 60000
    else if modelName = "glc" then 48000 else 25000
  else if make = "ford" then
    if modelName = "f-150" then 40000 else if modelName = "explorer" then 38000
    else if modelName = "escape" then 28000 else if modelName = "edge" then 35000
    else if modelName = "mustang" then 45000 else 25000
  else if make = "chevrolet" then
    if modelName = "silverado" then 38000 else if modelName = "equinox" then 28000
    else if modelName = "tahoe" then 55000 else if modelName = "traverse" then 35000
    else if modelName = "malibu" then 25000 else 25000
  else if make = "nissan" then
    if modelName = "altima" then 26000 else if modelName = "rogue" then 28000
    else if modelName = "sentra" then 21000 else if modelName = "murano" then 35000
    else if modelName = "pathfinder" then 36000 else 25000
  else 25000

/-- Body of `_check_vehicle_value` after year coercion succeeded
(fraud_check/agent.py:171-187): linear-capped age depreciation, then the
80%-of-value comparison. -/
def vehicleValueRisk (make modelName : String) (yr : ℤ) (claimAmount : ℚ)
    (today : Date) : List String × ℚ :=
  let base := vehicleBaseValue make modelName
  let age : ℤ := max 0 (today.year - yr)
  let depreciation : ℚ := min 0.5 ((age : ℚ) * 0.02)
  let currentValue := base * (1 - depreciation)
  if currentValue * 0.8 < claimAmount then
    (["claim_exceeds_vehicle_value"],
      min1 (0.5 + (claimAmount / currentValue - 0.8) * 2.5))
  else ([], 0)

/-- `_check_vehicle_value` (fraud_check/agent.py:136-193).  `int(year)` on a
non-coercible value raises `ValueError`, which this function catches itself,
yielding the `vehicle_value_calculation_error` indicator; an absent year
defaults to the current year. -/
def checkVehicleValue (v : VehicleData) (claimAmount : ℚ) (today : Date) :
    List String × ℚ :=
  match v.year with
  | .bad => (["vehicle_value_calculation_error"], 0)
  | .num n => vehicleValueRisk ((v.make.getD "").toLower)
      ((v.model.getD "").toLower) n claimAmount today
  | .missing => vehicleValueRisk ((v.make.getD "").toLower)
      ((v.model.getD "").toLower) today.year claimAmount today

/-- Extreme-amount check (fraud_check/agent.py:108-111). -/
def amHigh (amount : ℚ) (s : FState) : FState :=
  if 100000 < amount then
    ⟨s.inds ++ ["extremely_high_claim_amount"], max s.rs 0.9⟩
  else s

/-- Per-type threshold check (fraud_check/agent.py:113-120).  Note line 120
*overwrites* (not max/add) the running score. -/
def amThreshold (amount : ℚ) (ctype : String) (s : FState) : FState :=
  let threshold := claimLimits ctype.toLower
  if threshold < amount then
    ⟨s.inds ++ ["high_claim_amount_for_" ++ ctype],
      min 0.7 (0.3 + (amount / threshold - 1) * 0.1)⟩
  else s

/-- Round-number check (fraud_check/agent.py:122-125). -/
def amRound (amount : ℚ) (s : FState) : FState :=
  if 1000 < amount ∧ mult1000 amount then
    ⟨s.inds ++ ["suspicious_round_number"], min1 (s.rs + 0.3)⟩
  else s

/-- Vehicle-value comparison inside the amount check
(fraud_check/agent.py:127-131). -/
def amVehicle (c : ClaimData) (today : Date) (s : FState) : FState :=
  match c.vehicle with
  | some v =>
    if c.claim_type.toLower = "auto" then
      let vr := checkVehicleValue v c.amount_claimed today
      ⟨s.inds ++ vr.1, max s.rs vr.2⟩
    else s
  | none => s

/-- `_check_claim_amount` (fraud_check/agent.py:78-134). -/
def checkClaimAmount (c : ClaimData) (today : Date) : List String × ℚ :=
  if c.amount_claimed ≤ 0 then (["invalid_claim_amount"], 0)
  else
    let s := amVehicle c today
      (amRound c.amount_claimed
        (amThreshold c.amount_claimed c.claim_type
          (amHigh c.amount_claimed ⟨[], 0⟩)))
    (s.inds, s.rs)

/-- The weighted minor-damage phrase table (fraud_check/agent.py:218-224). -/
def minorDamagePhrases : List (String × ℚ) :=
  [("minor", 0.2), ("slight", 0.2), ("small", 0.2), ("tap", 0.3),
   ("bump", 0.3), ("fender bender", 0.4), ("fender-bender", 0.4),
   ("low speed", 0.3), ("low-speed", 0.3), ("scrape", 0.2),
   ("scratch", 0.2), ("small dent", 0.3), ("cosmetic", 0.2),
   ("superficial", 0.2), ("minor damage", 0.3), ("slight damage", 0.3)]

/-- `re.search("hit[ -]?and[ -]?run", s)`: the nine concrete expansions of
the pattern as substrings. -/
def hitAndRunMatch (lower : String) : Bool :=
  ["hit and run", "hit-and run", "hitand run", "hit and-run", "hit-and-run",
   "hitand-run", "hit andrun", "hit-andrun", "hitandrun"].any
    (fun p => pyIn p lower)

/-- The indicator name the source derives from the hit-and-run regex:
stripping `\`, `^`, `$` leaves the brackets, and spaces become
underscores (fraud_check/agent.py:288-294). -/
def hitAndRunTag : String := "suspicious_phrase_hit[_-]?and[_-]?run"

/-- The suspicious-phrase table minus the leading regex entry
(fraud_check/agent.py:264-284), paired with weights. -/
def suspiciousPhrases : List (String × ℚ) :=
  [("stolen", 0.5), ("vandalized", 0.4), ("arson", 0.7), ("theft", 0.4),
   ("broken into", 0.3), ("forced entry", 0.5), ("no witnesses", 0.4),
   ("no police report", 0.5), ("lost", 0.3), ("mystery", 0.4),
   ("unknown", 0.3), ("can" ++ apos ++ "t remember", 0.4), ("not sure", 0.3),
   ("maybe", 0.2), ("i think", 0.2), ("i believe", 0.2),
   ("suspicious", 0.4), ("strange", 0.3)]

/-- Number of maximal runs of at least four consecutive `[A-Z]` characters
(`re.findall(r"[A-Z]{4,}", s)`). -/
def capsRunsAux : List Char → ℕ → ℕ
  | [], run => if 4 ≤ run then 1 else 0
  | ch :: t, run =>
    if 'A' ≤ ch ∧ ch ≤ 'Z' then capsRunsAux t (run + 1)
    else (if 4 ≤ run then 1 else 0) + capsRunsAux t 0

/-- Count of ALL-CAPS words of 4+ letters in the original details. -/
def capsRuns (s : String) : ℕ := capsRunsAux s.data 0

/-- One pass of the minor-damage phrase loop (fraud_check/agent.py:228-232):
state is (indicators, score, found-any). -/
def minorLoop (lower : String) (st : List String × ℚ × Bool)
    (p : String × ℚ) : List String × ℚ × Bool :=
  if pyIn p.1 lower then
    (st.1 ++ ["minor_damage_" ++ p.1.replace " " "_"],
      min1 (st.2.1 + p.2), true)
  else st

/-- One pass of the suspicious-phrase loop (fraud_check/agent.py:287-296). -/
def suspiciousLoop (lower : String) (st : List String × ℚ)
    (p : String × ℚ) : List String × ℚ :=
  if pyIn p.1 lower then
    (st.1 ++ ["suspicious_phrase_" ++ p.1.replace " " "_"], min1 (st.2 + p.2))
  else st

/-- Minor-damage block of `_check_incident_details`
(fraud_check/agent.py:226-247). -/
def icMinor (amount : ℚ) (lower : String) (s : FState) : FState :=
  let m := minorDamagePhrases.foldl (minorLoop lower) (s.inds, s.rs, false)
  if m.2.2 then
    let s1 : FState := ⟨m.1 ++ ["minor_damage_indicated"], m.2.1⟩
    if 2000 < amount then
      let s2 : FState := ⟨s1.inds ++ ["high_claim_for_minor_damage"],
        min1 (s1.rs + min 0.6 (amount / 10000 * 0.3))⟩
      if 10000 < amount then
        ⟨s2.inds ++ ["very_high_claim_for_minor_damage"], min1 (s2.rs + 0.3)⟩
      else s2
    else s1
  else ⟨m.1, m.2.1⟩

/-- Parking-lot block of `_check_incident_details`
(fraud_check/agent.py:249-261). -/
def icParking (amount : ℚ) (lower : String) (s : FState) : FState :=
  if pyIn "parking lot" lower ∨ pyIn "parking-lot" lower then
    let s1 : FState := ⟨s.inds ++ ["parking_lot_incident"], s.rs⟩
    if 5000 < amount then
      let s2 : FState := ⟨s1.inds ++ ["high_claim_for_parking_lot_incident"],
        min1 (s1.rs + 0.3)⟩
      if 15000 < amount then
        ⟨s2.inds ++ ["very_high_parking_lot_claim"], min1 (s2.rs + 0.2)⟩
      else s2
    else s1
  else s

/-- Suspicious-phrase block of `_check_incident_details`
(fraud_check/agent.py:263-296): the hit-and-run regex entry, then the
plain-substring entries. -/
def icSuspicious (lower : String) (s : FState) : FState :=
  let s1 : FState :=
    if hitAndRunMatch lower then
      ⟨s.inds ++ [hitAndRunTag], min1 (s.rs + 0.4)⟩
    else s
  let r := suspiciousPhrases.foldl (suspiciousLoop lower) (s1.inds, s1.rs)
  ⟨r.1, r.2⟩

/-- All-caps block of `_check_incident_details`
(fraud_check/agent.py:298-300). -/
def icCaps (details : String) (s : FState) : FState :=
  if 2 < capsRuns details then
    ⟨s.inds ++ ["excessive_capitalization"], min1 (s.rs + 0.2)⟩
  else s

/-- `_check_incident_details` (fraud_check/agent.py:195-303). -/
def checkIncidentDetails (c : ClaimData) : List String × ℚ :=
  if c.incident_details = "" then ([], 0)
  else
    let lower := c.incident_details.toLower
    let amount := c.amount_claimed
    let s := icCaps c.incident_details
      (icSuspicious lower (icParking amount lower (icMinor amount lower ⟨[], 0⟩)))
    (s.inds, s.rs)

/-- Future-date checks of `_check_claim_timing`
(fraud_check/agent.py:329-336). -/
def twFuture (ps inc today : Date) (s : FState) : FState :=
  let s1 : FState :=
    if today.toOrdinal < ps.toOrdinal then
      ⟨s.inds ++ ["future_policy_start_date"], max s.rs 0.8⟩
    else s
  if today.toOrdinal < inc.toOrdinal then
    ⟨s1.inds ++ ["future_incident_date"], max s1.rs 0.9⟩
  else s1

/-- Weekend check (fraud_check/agent.py:348-352). -/
def twWeekend (inc : Date) (s : FState) : FState :=
  if 5 ≤ inc.weekday then
    ⟨s.inds ++ ["weekend_incident"], min1 (s.rs + 0.2)⟩
  else s

/-- Holiday-window checks (fraud_check/agent.py:354-375): the wrapped
winter window compares months only; the summer and fall windows compare
the incident against the window endpoints placed in the incident's year. -/
def twHolidays (inc : Date) (s : FState) : FState :=
  let s1 : FState :=
    if 12 ≤ inc.month ∨ inc.month ≤ 1 then
      ⟨s.inds ++ ["holiday_season_incident_12_1"], min1 (s.rs + 0.3)⟩
    else s
  let s2 : FState :=
    if (Date.le ⟨inc.year, 6, 1⟩ inc) ∧ (Date.le inc ⟨inc.year, 9, 1⟩) then
      ⟨s1.inds ++ ["holiday_season_incident_6_9"], min1 (s1.rs + 0.3)⟩
    else s1
  if (Date.le ⟨inc.year, 10, 15⟩ inc) ∧ (Date.le inc ⟨inc.year, 11, 15⟩) then
    ⟨s2.inds ++ ["holiday_season_incident_10_11"], min1 (s2.rs + 0.3)⟩
  else s2

/-- New-policy block of `_check_claim_timing`
(fraud_check/agent.py:377-405). -/
def twNewPolicy (days : ℤ) (amount : ℚ) (s : FState) : FState :=
  if days ≤ 30 then
    let baseRisk := min 0.8 (0.4 + amount / 50000)
    let dayMultiplier : ℚ := 1 - (days : ℚ) / 30
    let riskIncrease0 := baseRisk * dayMultiplier
    let riskIncrease := if 20000 < amount then riskIncrease0 * 1.5 else riskIncrease0
    let s1 : FState := ⟨s.inds ++ ["claim_within_30_days_of_policy_start"],
      min1 (s.rs + riskIncrease)⟩
    if days ≤ 7 then
      let s2 : FState := ⟨s1.inds ++ ["claim_within_7_days_of_policy_start"],
        min1 (s1.rs + 0.3)⟩
      if 20000 < amount then
        ⟨s2.inds ++ ["high_risk_new_policy_claim"], max s2.rs 0.95⟩
      else s2
    else s1
  else s

/-- Policy-expiry block of `_check_claim_timing`
(fraud_check/agent.py:407-419). -/
def twExpiry (days : ℤ) (amount : ℚ) (s : FState) : FState :=
  let daysUntilExpiry := 365 - days
  if 0 ≤ daysUntilExpiry ∧ daysUntilExpiry ≤ 30 then
    let s1 : FState := ⟨s.inds ++ ["claim_near_policy_expiry"], min1 (s.rs + 0.4)⟩
    if 10000 < amount then
      ⟨s1.inds ++ ["high_value_claim_near_policy_end"], min1 (s1.rs + 0.3)⟩
    else s1
  else s

/-- The core of `_check_claim_timing` once both dates parsed
(fraud_check/agent.py:324-419).  An incident before the policy start
returns early (line 343), skipping every later timing block. -/
def timingCore (ps inc : Date) (amount : ℚ) (today : Date) :
    List String × ℚ :=
  let s2 := twFuture ps inc today ⟨[], 0⟩
  if inc.toOrdinal < ps.toOrdinal then
    (s2.inds ++ ["incident_before_policy_start"], max s2.rs 0.95)
  else
    let days : ℤ := inc.toOrdinal - ps.toOrdinal
    let r := twExpiry days amount
      (twNewPolicy days amount (twHolidays inc (twWeekend inc s2)))
    (r.inds, r.rs)

/-- `_check_claim_timing` (fraud_check/agent.py:305-426): falsy dates skip
the check; a truthy unparseable date makes `strptime` raise, caught at line
421 with the `date_processing_error` indicator. -/
def checkClaimTiming (c : ClaimData) (today : Date) : List String × ℚ :=
  if c.policy_start_date = .missing ∨ c.incident_date = .missing then ([], 0)
  else
    match c.policy_start_date, c.incident_date with
    | .good ps, .good inc => timingCore ps inc c.amount_claimed today
    | _, _ => (["date_processing_error"], 0)

/-- `make_values` table of `_estimate_vehicle_value`
(fraud_check/agent.py:838-863), with per-make defaults. -/
def makeValues (make modelName : String) : ℚ :=
  if make = "toyota" then
    if modelName = "camry" then 25000 else if modelName = "corolla" then 22000
    else if modelName = "rav4" then 28000 else if modelName = "highlander" then 36000
    else 25000
  else if make = "honda" then
    if modelName = "accord" then 27000 else if modelName = "civic" then 24000
    else if modelName = "cr-v" then 30000 else if modelName = "pilot" then 38000
    else 28000
  else if make = "ford" then
    if modelName = "f-150" then 38000 else if modelName = "explorer" then 35000
    else if modelName = "escape" then 28000 else if modelName = "mustang" then 32000
    else 30000
  else 30000

/-- `_estimate_vehicle_value` (fraud_check/agent.py:824-883).  Unlike
`_check_vehicle_value` it has no local handler: `int(vehicle['year'])` on a
non-coercible value raises out of the function (caught only by the outer
handler of `process`). -/
def estimateVehicleValueE (v : Option VehicleData) (today : Date) :
    Except Unit ℚ :=
  match v with
  | none => .ok 0
  | some vd =>
    if vd.make = none ∨ vd.model = none ∨ vd.year = .missing then .ok 0
    else
      match vd.year with
      | .num y =>
        let age : ℤ := max 0 (today.year - y)
        let make := (vd.make.getD "").toLower
        let modelName := (vd.model.getD "").toLower
        let makeDict := makeValues make modelName
        let value : ℚ :=
          if age = 0 then makeDict * 0.85
          else makeDict * (0.85 * (0.9 : ℚ) ^ (age - 1).toNat)
        .ok (max 1000 value)
      | .missing => .ok 0
      | .bad => .error ()

/-! ## FraudCheckAgent: `process` (fraud_check/agent.py:428-755)

The body is a sequence of updates to a pair (indicator list, running
score); we name each source block as a step function so that per-step
lemmas (score bounds, indicator provenance) can be stated. -/

/-- Blocks 1-3 (fraud_check/agent.py:479-495): run the three checks and
`max`-combine their scores into the 0-initialised running score. -/
def stepChecks (c : ClaimData) (today : Date) : FState :=
  let a := checkClaimAmount c today
  let i := checkIncidentDetails c
  let t := checkClaimTiming c today
  ⟨a.1 ++ i.1 ++ t.1, max (max (max 0 a.2) i.2) t.2⟩

/-- Block 4, previous claims (fraud_check/agent.py:497-504). -/
def stepPrev (c : ClaimData) (s : FState) : FState :=
  if 0 < c.previous_claims then
    ⟨s.inds ++ ["previous_claims_" ++ toString c.previous_claims],
      min1 (s.rs + min 0.5 (0.1 * ((min c.previous_claims 5 : ℤ) : ℚ)))⟩
  else s

/-- Python `f"{q:.1f}"` for the positive ratios this is applied to. -/
def fmt1 (q : ℚ) : String :=
  let n : ℤ := round (q * 10)
  toString (n / 10) ++ "." ++ toString (n % 10)

/-- Block 5, claim-to-vehicle-value ratio (fraud_check/agent.py:512-526). -/
def stepRatio (amount vv : ℚ) (s : FState) : FState :=
  if 0 < vv then
    let ratio := min 5 (amount / vv)
    let s1 :=
      if 1.5 < ratio then
        ⟨s.inds ++ ["excessive_claim_ratio_" ++ (fmt1 ratio ++ "x")],
          min1 (s.rs + min 0.9 (0.4 + (ratio - 1.5) * 0.5))⟩
      else s
    if vv * 1.1 < amount then
      ⟨s1.inds ++ ["claim_exceeds_vehicle_value"], min1 (s1.rs + 0.6)⟩
    else s1
  else s

/-- Absolute high-value tiers (fraud_check/agent.py:528-540). -/
def stepHighValue (amount : ℚ) (s : FState) : FState :=
  if 100000 < amount then
    ⟨s.inds ++ ["extremely_high_value_claim"], min1 (s.rs + 0.7)⟩
  else if 50000 < amount then
    ⟨s.inds ++ ["very_high_value_claim"], min1 (s.rs + 0.4)⟩
  else if 20000 < amount then
    ⟨s.inds ++ ["high_value_claim"], min1 (s.rs + 0.2)⟩
  else s

/-- The second minor-damage phrase list (fraud_check/agent.py:543-547). -/
def minorPhrases2 : List String :=
  ["minor", "fender bender", "scratch", "dent", "small damage",
   "parking lot", "low speed", "bump", "tap", "scrape", "ding",
   "small dent", "paint scratch", "cosmetic", "minor damage"]

/-- `has_minor_damage` (fraud_check/agent.py:549-550). -/
def hasMinorDamage (lower : String) : Bool :=
  minorPhrases2.any (fun p => pyIn p lower)

/-- Block 6, minor damage with high amount (fraud_check/agent.py:552-576). -/
def stepMinor (amount : ℚ) (hasMinor : Bool) (s : FState) : FState :=
  if hasMinor then
    let s1 : FState := ⟨s.inds ++ ["minor_damage_indicated"], max s.rs 0.4⟩
    if 5000 < amount then
      let amountFactor := min 1 ((amount - 5000) / 10000)
      let riskIncrease := 0.3 + 0.6 * amountFactor
      let s2 : FState := ⟨s1.inds ++ ["high_claim_for_minor_damage"],
        min1 (max s1.rs (0.4 + riskIncrease))⟩
      if 50000 < amount then
        ⟨s2.inds ++ ["extremely_high_claim_for_minor_damage"], min1 (max s2.rs 0.9)⟩
      else if 20000 < amount then
        ⟨s2.inds ++ ["very_high_claim_for_minor_damage"], min1 (max s2.rs 0.7)⟩
      else s2
    else s1
  else s

/-- Parking-lot block of `process` (fraud_check/agent.py:578-585). -/
def stepParking (amount : ℚ) (lower : String) (s : FState) : FState :=
  if pyIn "parking" lower then
    let s1 : FState := ⟨s.inds ++ ["parking_lot_incident"], s.rs⟩
    if 5000 < amount then
      ⟨s1.inds ++ ["high_claim_parking_incident"],
        min1 (s1.rs + min 0.6 (0.3 + (min amount 100000 - 5000) / 200000))⟩
    else s1
  else s

/-- Block 7, the repeated vehicle-value comparison
(fraud_check/agent.py:588-594): appends `claim_exceeds_vehicle_value` a
second time and adds another 0.6. -/
def stepVehicleAgain (amount vv : ℚ) (s : FState) : FState :=
  if 0 < vv ∧ vv * 1.1 < amount then
    ⟨s.inds ++ ["claim_exceeds_vehicle_value"], min1 (s.rs + 0.6)⟩
  else s

/-- Block 8, the second new-policy check (fraud_check/agent.py:596-616);
missing or unparseable dates contribute nothing (the parse error is caught
and only logged). -/
def stepNewPolicy (c : ClaimData) (s : FState) : FState :=
  match c.policy_start_date, c.incident_date with
  | .good ps, .good inc =>
    let days : ℤ := inc.toOrdinal - ps.toOrdinal
    if 0 ≤ days ∧ days ≤ 30 then
      let s1 : FState := ⟨s.inds ++ ["claim_within_30_days_of_policy_start"],
        min1 (s.rs + 0.3 * (1 - (days : ℚ) / 30))⟩
      if days ≤ 7 then
        let s2 : FState := ⟨s1.inds ++ ["claim_within_first_week"],
          min1 (s1.rs + 0.2)⟩
        if 50000 < c.amount_claimed then
          ⟨s2.inds ++ ["high_risk_new_policy_claim"], min1 (s2.rs + 0.2)⟩
        else s2
      else s1
    else s
  | _, _ => s

/-- Final cap and the minor-damage-over-100k special case
(fraud_check/agent.py:618-625). -/
def stepSpecial (amount : ℚ) (hasMinor : Bool) (s : FState) : FState :=
  let s0 : FState := ⟨s.inds, min1 s.rs⟩
  if hasMinor ∧ 100000 < amount then
    let rs := max s0.rs 0.95
    if s0.inds.contains "extremely_high_claim_for_minor_damage" then
      ⟨s0.inds, rs⟩
    else ⟨s0.inds ++ ["extremely_high_claim_for_minor_damage"], rs⟩
  else s0

/-- The full indicator/score accumulation of `process` for a parsed claim
and the vehicle value `vv` returned by `_estimate_vehicle_value`. -/
def fraudAccum (c : ClaimData) (vv : ℚ) (today : Date) : FState :=
  let lower := c.incident_details.toLower
  let hasMinor := hasMinorDamage lower
  let amount := c.amount_claimed
  stepSpecial amount hasMinor
    (stepNewPolicy c
      (stepVehicleAgain amount vv
        (stepParking amount lower
          (stepMinor amount hasMinor
            (stepHighValue amount
              (stepRatio amount vv
                (stepPrev c (stepChecks c today))))))))

/-- The needs_review / recommendation step chain
(fraud_check/agent.py:632-649). -/
def recommend (rs : ℚ) : Bool × String :=
  if 0.9 ≤ rs then (true, "reject")
  else if 0.7 ≤ rs then (true, "review_required")
  else if 0.4 ≤ rs then (true, "review_recommended")
  else (false, "approve")

/-- The `fraud_analysis` dictionary of a successful run
(fraud_check/agent.py:669-683); fields no claim observes
(`risk_factors`, `claim_context`, `vehicle_value`,
`claim_to_value_ratio`) are omitted. -/
structure FraudAnalysisRec where
  risk_score : ℚ
  fraud_indicators : List String
  needs_review : Bool
  recommendation : String
deriving DecidableEq, Repr

/-- The four indicators that force `requires_manual_review`
(fraud_check/agent.py:688-693). -/
def specialIndicators : List String :=
  ["very_high_claim_for_minor_damage", "high_risk_new_policy_claim",
   "claim_within_first_week", "suspicious_pattern_detected"]

/-- The `risk_assessment` sub-dictionary (fraud_check/agent.py:702-708);
only the fields a claim observes are modelled. -/
structure RiskAssessment where
  risk_score : ℚ
  requires_manual_review : Bool
deriving DecidableEq, Repr

/-- The `data` dictionary of the `ProcessingResult` returned by
`FraudCheckAgent.process`.  On success (fraud_check/agent.py:697-713) it
has `fraud_analysis` and `risk_assessment` keys; the failure payload
(fraud_check/agent.py:746-755) instead carries top-level `risk_score`,
`needs_review` and `fraud_indicators` keys (and no `fraud_analysis`). -/
structure FraudResultData where
  fraud_analysis : Option FraudAnalysisRec
  risk_assessment : Option RiskAssessment
  top_risk_score : Option ℚ
  top_needs_review : Option Bool
  top_fraud_indicators : Option (List String)
deriving DecidableEq, Repr

/-- `ProcessingResult` (base_agent.py:11-15), with the agent-specific
shape of `data`. -/
structure PResult (α : Type) where
  success : Bool
  data : α
  error : Option String
deriving DecidableEq, Repr

/-- Assemble the successful `ProcessingResult` data of `process`. -/
def fraudAssemble (c : ClaimData) (vv : ℚ) (today : Date) : FraudResultData :=
  let st := fraudAccum c vv today
  let nr := recommend st.rs
  { fraud_analysis := some
      { risk_score := pyRound 4 st.rs
        fraud_indicators := sortedDedup st.inds
        needs_review := nr.1
        recommendation := nr.2 }
    risk_assessment := some
      { risk_score := pyRound 2 st.rs
        requires_manual_review :=
          decide (0.8 ≤ st.rs) || st.inds.any (fun i => specialIndicators.contains i) }
    top_risk_score := none
    top_needs_review := none
    top_fraud_indicators := none }

/-- The fail-closed failure payload of the outer handler
(fraud_check/agent.py:746-755); the error text is abbreviated. -/
def failClosedResult : PResult FraudResultData :=
  { success := false
    data :=
      { fraud_analysis := none
        risk_assessment := none
        top_risk_score := some 1
        top_needs_review := some true
        top_fraud_indicators := some ["error_processing_fraud_check"] }
    error := some "FRAUD_CHECK_ERROR: An error occurred during fraud detection." }

/-- The body of `process` inside the outer `try` (fraud_check/agent.py:444-733).
Its two failure modes: `ClaimData.from_dict` raising (the inner handler at
lines 455-462 then itself raises, because it passes a `dict` for the
string-typed `error` field of `ProcessingResult`), and
`_estimate_vehicle_value` raising on a non-coercible `year`. -/
def fraudBodyE (raw : RawClaim) (today : Date) :
    Except Unit (PResult FraudResultData) := do
  let c ← fromDict raw
  let vv ← estimateVehicleValueE c.vehicle today
  pure { success := true, data := fraudAssemble c vv today, error := none }

/-- `FraudCheckAgent.process` as observed by a caller awaiting the task:
the outer handler (fraud_check/agent.py:735-755) converts every body
exception into the fail-closed `ProcessingResult`. -/
def fraudProcessE (raw : RawClaim) (today : Date) :
    Except Unit (PResult FraudResultData) :=
  match fraudBodyE raw today with
  | .ok r => .ok r
  | .error _ => .ok failClosedResult

/-! ## PolicyValidationAgent (policy_validation/agent.py) -/

/-- The `ingested_claim` dictionary built by the coordinator
(agent.py:398-410); `additional_data` is inlined. -/
structure IngestedClaim where
  claim_id : String
  policy_number : String
  claim_type : String
  incident_date : DateField
  policy_start_date : DateField
  amount_claimed : ℚ
  incident_details : String
  supporting_documents : List String
  vehicle : Option VehicleData
deriving DecidableEq, Repr

/-- The `policy_validation` result dictionary
(policy_validation/agent.py:44-49). -/
structure PolicyValidationRec where
  policy_number : String
  is_valid : Bool
  claim_type_covered : Bool
  validation_date : String
deriving DecidableEq, Repr

/-- `PolicyValidationAgent.process` (policy_validation/agent.py:24-61).
The parameter is the value of the `ingested_claim` key of the dictionary
the agent receives (`none` when the key is absent or its value empty).
`data` models the `policy_validation` key of the result's `data` dict. -/
def policyProcess (arg : Option IngestedClaim) :
    PResult (Option PolicyValidationRec) :=
  match arg with
  | none =>
    { success := false, data := none, error := some "No ingested claim data found" }
  | some g =>
    let isValid := g.policy_number.startsWith "POL-"
    { success := isValid
      data := some
        { policy_number := g.policy_number
          is_valid := isValid
          claim_type_covered := ["auto", "home", "health"].contains g.claim_type
          validation_date := "2023-09-17" }
      error := none }

/-! ## PayoutEstimatorAgent (payout_estimator/agent.py) -/

/-- The `payout_estimation` result (payout_estimator/agent.py:81-91);
`calculation_notes` is omitted. -/
structure PayoutEstimate where
  claim_id : String
  original_claim_amount : ℚ
  approved_amount : ℚ
  deductible_applied : ℚ
  currency : String
deriving DecidableEq, Repr

/-- The `policy_validation` part of the payout input, as read by the
estimator (`is_valid` / `claim_type_covered`). -/
structure PayoutPolicyArg where
  is_valid : Bool
  claim_type_covered : Bool
deriving DecidableEq, Repr

/-- The `fraud_analysis` part of the payout input.  The estimator's review
gate reads `fraud_analysis['risk_assessment']['requires_manual_review']`
(payout_estimator/agent.py:48); the coordinator-built argument
(agent.py:542-547) never contains a `risk_assessment` key. -/
structure PayoutFraudArg where
  risk_score : ℚ
  needs_review : Bool
  fraud_indicators : List String
  risk_assessment : Option RiskAssessment
deriving DecidableEq, Repr

/-- The full argument of `PayoutEstimatorAgent.process`; a field is `none`
when the corresponding key is absent or its value falsy (empty dict). -/
structure PayoutArg where
  ingested : Option IngestedClaim
  policy : Option PayoutPolicyArg
  fraud : Option PayoutFraudArg
deriving DecidableEq, Repr

/-- The `data` dictionary of the estimator's `ProcessingResult`: either a
`payout_estimation` (success), a `claim_denied` note (not covered), or a
manual-review payload (payout_estimator/agent.py:41-57, 93-96). -/
structure PayoutResultData where
  payout_estimation : Option PayoutEstimate
  claim_denied : Option String
  needs_manual_review : Option Bool
  review_fraud_indicators : Option (List String)
  review_risk_score : Option ℚ
deriving DecidableEq, Repr

/-- `max_payouts` with its default (payout_estimator/agent.py:68-74). -/
def maxPayouts (t : String) : ℚ :=
  if t = "auto" then 50000 else if t = "home" then 500000
  else if t = "health" then 100000 else 10000

/-- `PayoutEstimatorAgent.process` (payout_estimator/agent.py:24-103). -/
def payoutProcess (arg : PayoutArg) : PResult PayoutResultData :=
  match arg.ingested, arg.policy, arg.fraud with
  | some g, some p, some f =>
    if ¬p.is_valid ∨ ¬p.claim_type_covered then
      { success := false
        data := { payout_estimation := none
                  claim_denied := some "Policy validation failed"
                  needs_manual_review := none
                  review_fraud_indicators := none
                  review_risk_score := none }
        error := some "Claim not covered by policy" }
    else if (f.risk_assessment.map (·.requires_manual_review)).getD false then
      { success := false
        data := { payout_estimation := none
                  claim_denied := none
                  needs_manual_review := some true
                  review_fraud_indicators := some f.fraud_indicators
                  review_risk_score := some f.risk_score }
        error := some "Potential fraud detected, requires manual review" }
    else
      let claimAmount := g.amount_claimed
      let claimType := g.claim_type.toLower
      let payout0 := min claimAmount (maxPayouts claimType)
      let payout := max 0 (payout0 - 500)
      { success := true
        data := { payout_estimation := some
                    { claim_id := g.claim_id
                      original_claim_amount := claimAmount
                      approved_amount := pyRound 2 payout
                      deductible_applied := min 500 claimAmount
                      currency := "USD" }
                  claim_denied := none
                  needs_manual_review := none
                  review_fraud_indicators := none
                  review_risk_score := none }
        error := none }
  | _, _, _ =>
    { success := false
      data := { payout_estimation := none, claim_denied := none
                needs_manual_review := none, review_fraud_indicators := none
                review_risk_score := none }
      error := some "Incomplete claim data for payout estimation" }

/-! ## The coordinator: `InsuranceClaimProcessor._process_claim_impl`
(agent.py:325-632) -/

/-- The shape of `context["fraud_analysis"]` as stored into
`steps.fraud_check`: the agent's `fraud_analysis` dict, the coordinator's
benign default (agent.py:455-460), or its fail-closed dict for a task that
returned an exception (agent.py:445-450). -/
structure FraudView where
  risk_score : ℚ
  needs_review : Bool
  fraud_indicators : List String
  recommendation : Option String
  error : Option String
deriving DecidableEq, Repr

/-- The `steps` dictionary of the final result (agent.py:569-574). -/
structure Steps where
  data_ingestion : IngestedClaim
  policy_validation : Option PolicyValidationRec
  fraud_check : FraudView
  payout_estimation : Option PayoutEstimate
deriving DecidableEq, Repr

/-- The dictionary returned by `_process_claim_impl`; `steps = none`
models the empty `steps` of an error result. -/
structure ClaimResult where
  status : String
  claim_id : String
  steps : Option Steps
  approved_amount : Option ℚ
  currency : Option String
  error : Option String
  warning : Option String
deriving DecidableEq, Repr

/-- Decision-message helpers (agent.py:601, 604, 611); `toString` on the
rational score approximates Python's float formatting. -/
def rejectMsg (risk : ℚ) (inds : List String) : String :=
  "Claim rejected due to high fraud risk (score: " ++ toString risk ++
    "). Indicators: " ++ String.intercalate ", " inds

/-- Message of the requires-review decision branch (agent.py:604). -/
def reviewMsg (risk : ℚ) (inds : List String) : String :=
  "Claim requires manual review due to potential fraud indicators (score: " ++
    toString risk ++ "). Indicators: " ++ String.intercalate ", " inds

/-- Warning of the approved-with-indicators branch (agent.py:611). -/
def warnMsg (risk : ℚ) (inds : List String) : String :=
  "Claim approved but with fraud indicators (score: " ++ toString risk ++
    "). Indicators: " ++ String.intercalate ", " inds

/-- How the coordinator consumes the gathered fraud-task outcome
(agent.py:442-463): an exception becomes the fail-closed dict; otherwise
`data.get("fraud_analysis", {})`, replaced by benign defaults when empty —
in particular the failure payload of `FraudCheckAgent.process`, whose data
has no `fraud_analysis` key, is replaced by the benign defaults. -/
def mergeFraudOutcome (outcome : Except Unit (PResult FraudResultData)) :
    FraudView :=
  match outcome with
  | .error _ =>
    { risk_score := 1, needs_review := true
      fraud_indicators := ["error_processing_fraud_check"]
      recommendation := none, error := some "Fraud check failed" }
  | .ok res =>
    match res.data.fraud_analysis with
    | some fa =>
      { risk_score := fa.risk_score, needs_review := fa.needs_review
        fraud_indicators := fa.fraud_indicators
        recommendation := some fa.recommendation, error := none }
    | none =>
      { risk_score := 0, needs_review := false, fraud_indicators := []
        recommendation := some "approve", error := none }

/-- An error-status result (agent.py:628-632); the error text (which
embeds the Python traceback) is abbreviated. -/
def errorResult (claimId : String) : ClaimResult :=
  { status := "error", claim_id := claimId, steps := none
    approved_amount := none, currency := none
    error := some "Unexpected error", warning := none }

/-- `_process_claim_impl` (agent.py:325-632).  `fresh1`/`fresh2`/`fresh3`
are the `uuid` suffixes drawn at agent.py:368, 399 and 497 (consulted only
when the claim id is absent or empty).  `today` is the date of
`datetime.now()`.

Notes kept from the source:
* a non-coercible `claim_amount` makes `float` raise at line 405; the
  inner handler re-raises `RuntimeError` (line 581), which the outer
  `except Exception` turns into an error result — the `except ValueError`
  at line 623 is unreachable from the inner block;
* the policy task is called (line 425) on `context["ingested_claim"]`
  itself, which has no `ingested_claim` key, so the agent always reports
  "No ingested claim data found" with empty data, and the payout argument
  falls back to `is_valid = claim_type_covered = True` (lines 537-541);
* a failed payout `ProcessingResult` would raise at line 556, ending in an
  error result like the amount case. -/
def processClaim (raw : RawClaim) (today : Date)
    (fresh1 fresh2 fresh3 : String) : ClaimResult :=
  let claimId := (raw.claim_id).getD ("CLAIM-" ++ fresh1)
  match raw.claim_amount with
  | .bad => errorResult claimId
  | amt =>
    let amount : ℚ := match amt with | .num q => q | _ => 0
    let ingested : IngestedClaim :=
      { claim_id := if claimId = "" then "CLAIM-" ++ fresh2 else claimId
        policy_number := (raw.policy_number).getD ""
        claim_type := ((raw.claim_type).getD "auto").toLower
        incident_date := raw.incident_date
        policy_start_date := raw.policy_start_date
        amount_claimed := amount
        incident_details := (raw.incident_details).getD ""
        supporting_documents := raw.supporting_documents
        vehicle := raw.vehicle }
    let policyRes := policyProcess none
    let policyVal : Option PolicyValidationRec := policyRes.data
    let fraudView := mergeFraudOutcome (fraudProcessE raw today)
    let ingested2 : IngestedClaim :=
      { ingested with
        claim_id := if ingested.claim_id = "" then "CLAIM-" ++ fresh3
          else ingested.claim_id }
    let payoutArg : PayoutArg :=
      { ingested := some ingested2
        policy := some
          { is_valid := (policyVal.map (·.is_valid)).getD true
            claim_type_covered := (policyVal.map (·.claim_type_covered)).getD true }
        fraud := some
          { risk_score := fraudView.risk_score
            needs_review := fraudView.needs_review
            fraud_indicators := fraudView.fraud_indicators
            risk_assessment := none } }
    let payoutRes := payoutProcess payoutArg
    if payoutRes.success = false then errorResult claimId
    else
      let est := payoutRes.data.payout_estimation
      let approved : ℚ := (est.map (·.approved_amount)).getD 0
      let curr : String := (est.map (·.currency)).getD "USD"
      let steps : Steps :=
        { data_ingestion := ingested
          policy_validation := policyVal
          fraud_check := fraudView
          payout_estimation := est }
      let base : ClaimResult :=
        { status := "processing", claim_id := claimId, steps := some steps
          approved_amount := some approved, currency := some curr
          error := none, warning := none }
      let inds := fraudView.fraud_indicators
      let risk := fraudView.risk_score
      let estPositive : Bool := match est with
        | some e => decide (0 < e.approved_amount)
        | none => false
      if inds ≠ [] then
        if 0.7 ≤ risk then
          { base with status := "rejected", error := some (rejectMsg risk inds) }
        else if fraudView.needs_review = true ∨ 0.4 ≤ risk then
          { base with status := "requires_review", error := some (reviewMsg risk inds) }
        else if estPositive then
          { base with status := "approved", warning := some (warnMsg risk inds) }
        else base
      else if estPositive then
        { base with status := "approved" }
      else
        { base with
          status := "requires_review"
          error := some "Payout estimation failed or resulted in zero amount" }

/-! ## Concrete inputs and run extractors used by the closed statements -/

/-- A fixed run date (the `datetime.now()` of the runs below). -/
def t0 : Date := ⟨2026, 10, 12⟩

/-- A complete, unremarkable claim dictionary: valid policy number, auto
claim of 3500 with empty details, no vehicle data, no dates. -/
def baseRaw : RawClaim :=
  { claim_id := some "CLAIM-1"
    policy_number := some "POL-1"
    claim_type := some "auto"
    claim_amount := .num 3500
    incident_details := some ""
    supporting_documents := []
    vehicle := none
    previous_claims := .missing
    incident_date := .missing
    policy_start_date := .missing }

/-- `baseRaw` with a truthy `previous_claims` value `int()` rejects:
`ClaimData.from_dict` raises on it, so the fraud agent fails internally. -/
def c1raw : RawClaim := { baseRaw with previous_claims := .bad }

/-- `baseRaw` with details hitting the suspicious phrases `strange` and
`unknown` (weight 0.3 each): risk 0.6, `needs_review` true. -/
def c2raw : RawClaim := { baseRaw with incident_details := some "strange unknown" }

/-- Amount 300 with the weak suspicious phrase `maybe` (weight 0.2): one
indicator, risk 0.2, and a zero payout after the 500 deductible. -/
def c3raw : RawClaim :=
  { baseRaw with claim_amount := .num 300, incident_details := some "maybe" }

/-- `baseRaw` with a policy number that does not start with `POL-`. -/
def c8raw : RawClaim := { baseRaw with policy_number := some "ABC-1" }

/-- `baseRaw` with a parsed incident date strictly before the parsed
policy start date. -/
def w5raw : RawClaim :=
  { baseRaw with incident_date := .good ⟨2025, 1, 1⟩, policy_start_date := .good ⟨2025, 6, 1⟩ }

/-- A complete ingested claim for calling the payout estimator directly. -/
def w6g : IngestedClaim :=
  { claim_id := "CLAIM-1"
    policy_number := "POL-1"
    claim_type := "auto"
    incident_date := .missing
    policy_start_date := .missing
    amount_claimed := 3500
    incident_details := ""
    supporting_documents := []
    vehicle := none }

/-- The `ProcessingResult` of a fraud run (with `failClosedResult` as the
default of the impossible error branch, cf. `fraudProcessE`). -/
def fraudRunOf (raw : RawClaim) (today : Date) : PResult FraudResultData :=
  match fraudBodyE raw today with
  | .ok r => r
  | .error _ => failClosedResult

/-- The `fraud_analysis` of a fraud run (defaulted when absent). -/
def faOf (raw : RawClaim) (today : Date) : FraudAnalysisRec :=
  ((fraudRunOf raw today).data.fraud_analysis).getD ⟨0, [], false, ""⟩

/-- The `risk_assessment` of a fraud run (defaulted when absent). -/
def raOf (raw : RawClaim) (today : Date) : RiskAssessment :=
  ((fraudRunOf raw today).data.risk_assessment).getD ⟨0, false⟩

/-! ## Predicates and tag tables used by the statements -/

/-- `t` belongs to the indicator family with prefix `fam`. -/
def FamTag (fam t : String) : Prop := ∃ s, t = fam ++ s

/-- Indicators the amount check can produce. -/
def AmountTag (t : String) : Prop :=
  t ∈ ["invalid_claim_amount", "extremely_high_claim_amount",
       "suspicious_round_number", "claim_exceeds_vehicle_value",
       "vehicle_value_calculation_error"] ∨
    FamTag "high_claim_amount_for_" t

/-- Indicators the incident-details check can produce. -/
def IncidentTag (t : String) : Prop :=
  t ∈ ["minor_damage_indicated", "high_claim_for_minor_damage",
       "very_high_claim_for_minor_damage", "parking_lot_incident",
       "high_claim_for_parking_lot_incident", "very_high_parking_lot_claim",
       "excessive_capitalization"] ∨
    FamTag "minor_damage_" t ∨ FamTag "suspicious_phrase_" t

/-- Indicators blocks 4-7 and the special case of `process` can produce
(excluding block 8, the new-policy block, which is handled separately). -/
def ProcTag (t : String) : Prop :=
  t ∈ ["claim_exceeds_vehicle_value", "extremely_high_value_claim",
       "very_high_value_claim", "high_value_claim", "minor_damage_indicated",
       "high_claim_for_minor_damage", "extremely_high_claim_for_minor_damage",
       "very_high_claim_for_minor_damage", "parking_lot_incident",
       "high_claim_parking_incident"] ∨
    FamTag "previous_claims_" t ∨ FamTag "excessive_claim_ratio_" t

/-- The timing indicators other than `incident_before_policy_start`
(fraud_check/agent.py:345-426), listed for the C5 statement. -/
def c5ExcludedTags : List String :=
  ["weekend_incident", "holiday_season_incident_12_1",
   "holiday_season_incident_6_9", "holiday_season_incident_10_11",
   "claim_within_30_days_of_policy_start",
   "claim_within_7_days_of_policy_start", "claim_within_first_week",
   "claim_near_policy_expiry", "high_value_claim_near_policy_end",
   "high_risk_new_policy_claim"]

/-! ## Basic lemmas about the numeric helpers -/

theorem min1_le_one (x : ℚ) : min1 x ≤ 1 := min_le_left _ _

theorem min1_nonneg {x : ℚ} (h : 0 ≤ x) : 0 ≤ min1 x :=
  le_min (by norm_num) h

theorem le_min1_add {x w : ℚ} (hx : x ≤ 1) (hw : 0 ≤ w) : x ≤ min1 (x + w) :=
  le_min hx (by linarith)

theorem pyRound_le (n : ℕ) {b x : ℚ} (hb : x ≤ b)
    (hbint : ∃ z : ℤ, (z : ℚ) = b * 10 ^ n) : pyRound n x ≤ b := by
  obtain ⟨z, hz⟩ := hbint
  unfold pyRound
  have hp : (0 : ℚ) < 10 ^ n := by positivity
  rw [div_le_iff hp, ← hz]
  have : round (x * 10 ^ n) ≤ z := by
    rw [round_eq]
    have hfl : ⌊x * 10 ^ n + 1 / 2⌋ ≤ ⌊(z : ℚ) + 1 / 2⌋ := by
      apply Int.floor_le_floor
      have : x * 10 ^ n ≤ (z : ℚ) := by
        rw [hz]; nlinarith
      linarith
    rwa [Int.floor_int_add, show ⌊(1 : ℚ) / 2⌋ = 0 by norm_num, add_zero] at hfl
  exact_mod_cast this

theorem pyRound_ge (n : ℕ) {b x : ℚ} (hb : b ≤ x)
    (hbint : ∃ z : ℤ, (z : ℚ) = b * 10 ^ n) : b ≤ pyRound n x := by
  obtain ⟨z, hz⟩ := hbint
  unfold pyRound
  have hp : (0 : ℚ) < 10 ^ n := by positivity
  rw [le_div_iff hp, ← hz]
  have : z ≤ round (x * 10 ^ n) := by
    rw [round_eq]
    apply Int.le_floor.mpr
    have : (z : ℚ) ≤ x * 10 ^ n := by rw [hz]; nlinarith
    linarith
  exact_mod_cast this

theorem pyRound_bounds (n : ℕ) {x : ℚ} (h0 : 0 ≤ x) (h1 : x ≤ 1) :
    0 ≤ pyRound n x ∧ pyRound n x ≤ 1 :=
  ⟨pyRound_ge n h0 ⟨0, by push_cast; ring⟩,
   pyRound_le n h1 ⟨10 ^ n, by push_cast; ring⟩⟩

/-- Membership in the Python `sorted(list(set(l)))`. -/
theorem mem_sortedDedup {l : List String} {t : String} :
    t ∈ sortedDedup l ↔ t ∈ l := by
  unfold sortedDedup
  rw [(List.perm_insertionSort _ _).mem_iff, List.mem_dedup]

theorem sortedDedup_nodup (l : List String) : (sortedDedup l).Nodup :=
  ((List.perm_insertionSort _ _).nodup_iff).mpr l.nodup_dedup

theorem sortedDedup_sorted (l : List String) :
    (sortedDedup l).Sorted (· ≤ ·) :=
  List.sorted_insertionSort _ _

/-! ## String-prefix tooling for the parametric indicator names -/

theorem append_ne_of_take {a t : String}
    (h : t.data.take a.data.length ≠ a.data) (b : String) : a ++ b ≠ t := by
  intro heq
  apply h
  rw [← heq, String.data_append, List.take_left]

theorem not_famTag_of_take {fam t : String}
    (h : t.data.take fam.data.length ≠ fam.data) : ¬ FamTag fam t := by
  rintro ⟨s, rfl⟩
  exact append_ne_of_take h s rfl

/-! ## Bounds for the fraud sub-checks -/

theorem claimLimits_pos (t : String) : 0 < claimLimits t := by
  unfold claimLimits; split_ifs <;> norm_num

theorem itePos {c : Prop} [Decidable c] {a b : ℚ} (ha : 0 < a) (hb : 0 < b) :
    0 < if c then a else b := by
  split <;> assumption

theorem vehicleBaseValue_pos (make modelName : String) :
    0 < vehicleBaseValue make modelName := by
  unfold vehicleBaseValue
  repeat' apply itePos
  all_goals norm_num

theorem riskBranchBounds {B d a : ℚ} (hB : 0 < B) (hd : d ≤ 0.5)
    (h : B * (1 - d) * 0.8 < a) :
    0 ≤ min1 (0.5 + (a / (B * (1 - d)) - 0.8) * 2.5) ∧
      min1 (0.5 + (a / (B * (1 - d)) - 0.8) * 2.5) ≤ 1 := by
  have hcur : 0 < B * (1 - d) := mul_pos hB (by linarith)
  have hdiv : (0.8 : ℚ) < a / (B * (1 - d)) := by
    rw [lt_div_iff hcur]; nlinarith
  exact ⟨min1_nonneg (by nlinarith), min1_le_one _⟩

theorem vehicleValueRisk_rs (make modelName : String) (yr : ℤ) (a : ℚ)
    (today : Date) : 0 ≤ (vehicleValueRisk make modelName yr a today).2 ∧
      (vehicleValueRisk make modelName yr a today).2 ≤ 1 := by
  have hb : 0 < vehicleBaseValue make modelName := vehicleBaseValue_pos _ _
  unfold vehicleValueRisk
  dsimp only
  split_ifs with h
  · exact riskBranchBounds hb (min_le_left _ _) h
  · norm_num

theorem checkVehicleValue_rs (v : VehicleData) (a : ℚ) (today : Date) :
    0 ≤ (checkVehicleValue v a today).2 ∧ (checkVehicleValue v a today).2 ≤ 1 := by
  unfold checkVehicleValue
  rcases v.year with _ | _ | n
  · exact vehicleValueRisk_rs _ _ _ _ _
  · exact ⟨le_refl 0, by norm_num⟩
  · exact vehicleValueRisk_rs _ _ _ _ _

/-! ## Fold lemmas for the two phrase loops -/

theorem minorFold_rs (lower : String) :
    ∀ (l : List (String × ℚ)) (st : List String × ℚ × Bool),
      (∀ p ∈ l, 0 ≤ p.2) → 0 ≤ st.2.1 → st.2.1 ≤ 1 →
      0 ≤ (l.foldl (minorLoop lower) st).2.1 ∧
        (l.foldl (minorLoop lower) st).2.1 ≤ 1
  | [], _, _, h0, h1 => ⟨h0, h1⟩
  | p :: rest, st, hw, h0, h1 => by
    rw [List.foldl_cons]
    refine minorFold_rs lower rest _
      (fun q hq => hw q (List.mem_cons_of_mem _ hq)) ?_ ?_
    · unfold minorLoop; split_ifs
      · exact min1_nonneg (add_nonneg h0 (hw p (List.mem_cons_self _ _)))
      · exact h0
    · unfold minorLoop; split_ifs
      · exact min1_le_one _
      · exact h1

theorem minorFold_inds (lower : String) :
    ∀ (l : List (String × ℚ)) (st : List String × ℚ × Bool) (t : String),
      t ∈ (l.foldl (minorLoop lower) st).1 →
      t ∈ st.1 ∨ FamTag "minor_damage_" t
  | [], _, _, ht => Or.inl ht
  | p :: rest, st, t, ht => by
    rw [List.foldl_cons] at ht
    rcases minorFold_inds lower rest _ t ht with h | h
    · unfold minorLoop at h
      split_ifs at h
      · rcases List.mem_append.mp h with h' | h'
        · exact Or.inl h'
        · exact Or.inr ⟨_, List.mem_singleton.mp h'⟩
      · exact Or.inl h
    · exact Or.inr h

theorem suspiciousFold_rs (lower : String) :
    ∀ (l : List (String × ℚ)) (st : List String × ℚ),
      (∀ p ∈ l, 0 ≤ p.2) → 0 ≤ st.2 → st.2 ≤ 1 →
      0 ≤ (l.foldl (suspiciousLoop lower) st).2 ∧
        (l.foldl (suspiciousLoop lower) st).2 ≤ 1
  | [], _, _, h0, h1 => ⟨h0, h1⟩
  | p :: rest, st, hw, h0, h1 => by
    rw [List.foldl_cons]
    refine suspiciousFold_rs lower rest _
      (fun q hq => hw q (List.mem_cons_of_mem _ hq)) ?_ ?_
    · unfold suspiciousLoop; split_ifs
      · exact min1_nonneg (add_nonneg h0 (hw p (List.mem_cons_self _ _)))
      · exact h0
    · unfold suspiciousLoop; split_ifs
      · exact min1_le_one _
      · exact h1

theorem suspiciousFold_inds (lower : String) :
    ∀ (l : List (String × ℚ)) (st : List String × ℚ) (t : String),
      t ∈ (l.foldl (suspiciousLoop lower) st).1 →
      t ∈ st.1 ∨ FamTag "suspicious_phrase_" t
  | [], _, _, ht => Or.inl ht
  | p :: rest, st, t, ht => by
    rw [List.foldl_cons] at ht
    rcases suspiciousFold_inds lower rest _ t ht with h | h
    · unfold suspiciousLoop at h
      split_ifs at h
      · rcases List.mem_append.mp h with h' | h'
        · exact Or.inl h'
        · exact Or.inr ⟨_, List.mem_singleton.mp h'⟩
      · exact Or.inl h
    · exact Or.inr h

theorem minorDamagePhrases_wts : ∀ p ∈ minorDamagePhrases, 0 ≤ p.2 := by
  intro p hp
  fin_cases hp <;> norm_num

theorem suspiciousPhrases_wts : ∀ p ∈ suspiciousPhrases, 0 ≤ p.2 := by
  intro p hp
  fin_cases hp <;> norm_num

/-! ## Bounds and provenance for the incident-details blocks -/

theorem icMinor_rs (amount : ℚ) (lower : String) (s : FState)
    (h0 : 0 ≤ s.rs) (h1 : s.rs ≤ 1) :
    0 ≤ (icMinor amount lower s).rs ∧ (icMinor amount lower s).rs ≤ 1 := by
  obtain ⟨hf0, hf1⟩ := minorFold_rs lower minorDamagePhrases (s.inds, s.rs, false)
    minorDamagePhrases_wts h0 h1
  unfold icMinor
  dsimp only
  split_ifs with h2 h3 h4
  · have hw : (0 : ℚ) ≤ min 0.6 (amount / 10000 * 0.3) :=
      le_min (by norm_num) (by linarith)
    exact ⟨min1_nonneg (add_nonneg (min1_nonneg (add_nonneg hf0 hw)) (by norm_num)),
      min1_le_one _⟩
  · have hw : (0 : ℚ) ≤ min 0.6 (amount / 10000 * 0.3) :=
      le_min (by norm_num) (by linarith)
    exact ⟨min1_nonneg (add_nonneg hf0 hw), min1_le_one _⟩
  · exact ⟨hf0, hf1⟩
  · exact ⟨hf0, hf1⟩

theorem icMinor_inds (amount : ℚ) (lower : String) (s : FState) :
    ∀ t ∈ (icMinor amount lower s).inds, t ∈ s.inds ∨ IncidentTag t := by
  intro t ht
  have base : t ∈ (minorDamagePhrases.foldl (minorLoop lower)
      (s.inds, s.rs, false)).1 → t ∈ s.inds ∨ IncidentTag t := by
    intro h
    rcases minorFold_inds lower minorDamagePhrases _ t h with h' | h'
    · exact Or.inl h'
    · exact Or.inr (Or.inr (Or.inl h'))
  unfold icMinor at ht
  dsimp only at ht
  split_ifs at ht with h2 h3 h4
  · rcases List.mem_append.mp ht with h | h
    · rcases List.mem_append.mp h with h' | h'
      · rcases List.mem_append.mp h' with h'' | h''
        · exact base h''
        · exact Or.inr (Or.inl (by simp_all))
      · exact Or.inr (Or.inl (by simp_all))
    · exact Or.inr (Or.inl (by simp_all))
  · rcases List.mem_append.mp ht with h | h
    · rcases List.mem_append.mp h with h' | h'
      · exact base h'
      · exact Or.inr (Or.inl (by simp_all))
    · exact Or.inr (Or.inl (by simp_all))
  · rcases List.mem_append.mp ht with h | h
    · exact base h
    · exact Or.inr (Or.inl (by simp_all))
  · exact base ht

theorem icParking_rs (amount : ℚ) (lower : String) (s : FState)
    (h0 : 0 ≤ s.rs) (h1 : s.rs ≤ 1) :
    0 ≤ (icParking amount lower s).rs ∧ (icParking amount lower s).rs ≤ 1 := by
  unfold icParking
  dsimp only
  split_ifs
  · exact ⟨min1_nonneg (add_nonneg (min1_nonneg (add_nonneg h0 (by norm_num)))
      (by norm_num)), min1_le_one _⟩
  · exact ⟨min1_nonneg (add_nonneg h0 (by norm_num)), min1_le_one _⟩
  · exact ⟨h0, h1⟩
  · exact ⟨h0, h1⟩

theorem icParking_inds (amount : ℚ) (lower : String) (s : FState) :
    ∀ t ∈ (icParking amount lower s).inds, t ∈ s.inds ∨ IncidentTag t := by
  intro t ht
  unfold icParking at ht
  dsimp only at ht
  split_ifs at ht
  · rcases List.mem_append.mp ht with h | h
    · rcases List.mem_append.mp h with h' | h'
      · rcases List.mem_append.mp h' with h'' | h''
        · exact Or.inl h''
        · exact Or.inr (Or.inl (by simp_all))
      · exact Or.inr (Or.inl (by simp_all))
    · exact Or.inr (Or.inl (by simp_all))
  · rcases List.mem_append.mp ht with h | h
    · rcases List.mem_append.mp h with h' | h'
      · exact Or.inl h'
      · exact Or.inr (Or.inl (by simp_all))
    · exact Or.inr (Or.inl (by simp_all))
  · rcases List.mem_append.mp ht with h | h
    · exact Or.inl h
    · exact Or.inr (Or.inl (by simp_all))
  · exact Or.inl ht

theorem icSuspicious_rs (lower : String) (s : FState)
    (h0 : 0 ≤ s.rs) (h1 : s.rs ≤ 1) :
    0 ≤ (icSuspicious lower s).rs ∧ (icSuspicious lower s).rs ≤ 1 := by
  unfold icSuspicious
  dsimp only
  split_ifs with h
  · exact suspiciousFold_rs lower suspiciousPhrases _
      suspiciousPhrases_wts (min1_nonneg (add_nonneg h0 (by norm_num))) (min1_le_one _)
  · exact suspiciousFold_rs lower suspiciousPhrases _
      suspiciousPhrases_wts h0 h1

theorem icSuspicious_inds (lower : String) (s : FState) :
    ∀ t ∈ (icSuspicious lower s).inds, t ∈ s.inds ∨ IncidentTag t := by
  intro t ht
  unfold icSuspicious at ht
  dsimp only at ht
  split_ifs at ht with h
  · rcases suspiciousFold_inds lower suspiciousPhrases _ t ht with h' | h'
    · rcases List.mem_append.mp h' with h'' | h''
      · exact Or.inl h''
      · refine Or.inr (Or.inr (Or.inr ⟨"hit[_-]?and[_-]?run", ?_⟩))
        simpa [hitAndRunTag] using h''
    · exact Or.inr (Or.inr (Or.inr h'))
  · rcases suspiciousFold_inds lower suspiciousPhrases _ t ht with h' | h'
    · exact Or.inl h'
    · exact Or.inr (Or.inr (Or.inr h'))

theorem icCaps_rs (details : String) (s : FState)
    (h0 : 0 ≤ s.rs) (h1 : s.rs ≤ 1) :
    0 ≤ (icCaps details s).rs ∧ (icCaps details s).rs ≤ 1 := by
  unfold icCaps
  split_ifs
  · exact ⟨min1_nonneg (add_nonneg h0 (by norm_num)), min1_le_one _⟩
  · exact ⟨h0, h1⟩

theorem icCaps_inds (details : String) (s : FState) :
    ∀ t ∈ (icCaps details s).inds, t ∈ s.inds ∨ IncidentTag t := by
  intro t ht
  unfold icCaps at ht
  split_ifs at ht
  · rcases List.mem_append.mp ht with h | h
    · exact Or.inl h
    · exact Or.inr (Or.inl (by simp_all))
  · exact Or.inl ht

theorem checkIncidentDetails_rs (c : ClaimData) :
    0 ≤ (checkIncidentDetails c).2 ∧ (checkIncidentDetails c).2 ≤ 1 := by
  unfold checkIncidentDetails
  split_ifs
  · norm_num
  · obtain ⟨h0, h1⟩ := icMinor_rs c.amount_claimed c.incident_details.toLower
      ⟨[], 0⟩ (le_refl 0) (by norm_num)
    obtain ⟨h0, h1⟩ := icParking_rs c.amount_claimed c.incident_details.toLower _ h0 h1
    obtain ⟨h0, h1⟩ := icSuspicious_rs c.incident_details.toLower _ h0 h1
    exact icCaps_rs c.incident_details _ h0 h1

theorem checkIncidentDetails_inds (c : ClaimData) :
    ∀ t ∈ (checkIncidentDetails c).1, IncidentTag t := by
  unfold checkIncidentDetails
  split_ifs <;> intro t ht
  · simp at ht
  · rcases icCaps_inds _ _ t ht with h | h
    rcases icSuspicious_inds _ _ t h with h' | h'
    rcases icParking_inds _ _ _ t h' with h'' | h''
    rcases icMinor_inds _ _ _ t h'' with h''' | h'''
    · simp at h'''
    all_goals assumption

/-! ## Bounds and provenance for the timing blocks -/

theorem addCapBounds {x w : ℚ} (h0 : 0 ≤ x) (hw : 0 ≤ w) :
    0 ≤ min1 (x + w) ∧ min1 (x + w) ≤ 1 :=
  ⟨min1_nonneg (add_nonneg h0 hw), min1_le_one _⟩

theorem twFuture_rs (ps inc today : Date) (s : FState)
    (h0 : 0 ≤ s.rs) (h1 : s.rs ≤ 1) :
    0 ≤ (twFuture ps inc today s).rs ∧ (twFuture ps inc today s).rs ≤ 1 := by
  unfold twFuture
  dsimp only
  split_ifs
  · exact ⟨le_max_of_le_right (by norm_num), max_le (max_le h1 (by norm_num)) (by norm_num)⟩
  · exact ⟨le_max_of_le_right (by norm_num), max_le h1 (by norm_num)⟩
  · exact ⟨le_max_of_le_right (by norm_num), max_le h1 (by norm_num)⟩
  · exact ⟨h0, h1⟩

theorem twFuture_inds (ps inc today : Date) (s : FState) :
    ∀ t ∈ (twFuture ps inc today s).inds,
      t ∈ s.inds ∨ t = "future_policy_start_date" ∨ t = "future_incident_date" := by
  intro t ht
  unfold twFuture at ht
  dsimp only at ht
  split_ifs at ht
  · rcases List.mem_append.mp ht with h | h
    · rcases List.mem_append.mp h with h' | h'
      · exact Or.inl h'
      · exact Or.inr (Or.inl (by simpa using h'))
    · exact Or.inr (Or.inr (by simpa using h))
  · rcases List.mem_append.mp ht with h | h
    · exact Or.inl h
    · exact Or.inr (Or.inr (by simpa using h))
  · rcases List.mem_append.mp ht with h | h
    · exact Or.inl h
    · exact Or.inr (Or.inl (by simpa using h))
  · exact Or.inl ht

theorem twWeekend_rs (inc : Date) (s : FState)
    (h0 : 0 ≤ s.rs) (h1 : s.rs ≤ 1) :
    0 ≤ (twWeekend inc s).rs ∧ (twWeekend inc s).rs ≤ 1 := by
  unfold twWeekend
  split_ifs
  · exact ⟨min1_nonneg (add_nonneg h0 (by norm_num)), min1_le_one _⟩
  · exact ⟨h0, h1⟩

theorem twHolidays_rs (inc : Date) (s : FState)
    (h0 : 0 ≤ s.rs) (h1 : s.rs ≤ 1) :
    0 ≤ (twHolidays inc s).rs ∧ (twHolidays inc s).rs ≤ 1 := by
  have c3 : (0 : ℚ) ≤ 0.3 := by norm_num
  have d1 : 0 ≤ min1 (s.rs + 0.3) := min1_nonneg (add_nonneg h0 c3)
  have d2 : 0 ≤ min1 (min1 (s.rs + 0.3) + 0.3) := min1_nonneg (add_nonneg d1 c3)
  have d3 : 0 ≤ min1 (min1 (min1 (s.rs + 0.3) + 0.3) + 0.3) :=
    min1_nonneg (add_nonneg d2 c3)
  unfold twHolidays
  dsimp only
  split_ifs
  · exact ⟨d3, min1_le_one _⟩
  · exact ⟨d2, min1_le_one _⟩
  · exact ⟨d2, min1_le_one _⟩
  · exact ⟨d1, min1_le_one _⟩
  · exact ⟨d2, min1_le_one _⟩
  · exact ⟨d1, min1_le_one _⟩
  · exact ⟨d1, min1_le_one _⟩
  · exact ⟨h0, h1⟩

theorem newPolicyIncNonneg {days : ℤ} {amount : ℚ} (hA : 0 ≤ amount)
    (hd : days ≤ 30) :
    (0 : ℚ) ≤ min 0.8 (0.4 + amount / 50000) * (1 - (days : ℚ) / 30) := by
  have hdays : ((days : ℚ)) ≤ 30 := by exact_mod_cast hd
  exact mul_nonneg (le_min (by norm_num) (by linarith)) (by linarith)

theorem twNewPolicy_rs (days : ℤ) (amount : ℚ) (s : FState)
    (hA : 0 ≤ amount) (h0 : 0 ≤ s.rs) (h1 : s.rs ≤ 1) :
    0 ≤ (twNewPolicy days amount s).rs ∧ (twNewPolicy days amount s).rs ≤ 1 := by
  unfold twNewPolicy
  dsimp only
  split_ifs with hd hd7 hm
  · exact ⟨le_max_of_le_right (by norm_num), max_le (min1_le_one _) (by norm_num)⟩
  · exact addCapBounds (addCapBounds h0 (newPolicyIncNonneg hA hd)).1 (by norm_num)
  · exact addCapBounds h0 (by nlinarith [newPolicyIncNonneg hA hd])
  · exact addCapBounds h0 (newPolicyIncNonneg hA hd)
  · exact ⟨h0, h1⟩

theorem twExpiry_rs (days : ℤ) (amount : ℚ) (s : FState)
    (h0 : 0 ≤ s.rs) (h1 : s.rs ≤ 1) :
    0 ≤ (twExpiry days amount s).rs ∧ (twExpiry days amount s).rs ≤ 1 := by
  unfold twExpiry
  dsimp only
  split_ifs
  · exact ⟨min1_nonneg (add_nonneg (min1_nonneg (add_nonneg h0 (by norm_num)))
      (by norm_num)), min1_le_one _⟩
  · exact ⟨min1_nonneg (add_nonneg h0 (by norm_num)), min1_le_one _⟩
  · exact ⟨h0, h1⟩

theorem timingCore_rs (ps inc : Date) (amount : ℚ) (today : Date)
    (hA : 0 ≤ amount) :
    0 ≤ (timingCore ps inc amount today).2 ∧
      (timingCore ps inc amount today).2 ≤ 1 := by
  obtain ⟨h0, h1⟩ := twFuture_rs ps inc today ⟨[], 0⟩ (le_refl 0) (by norm_num)
  unfold timingCore
  dsimp only
  split_ifs with h
  · exact ⟨le_max_of_le_right (by norm_num), max_le h1 (by norm_num)⟩
  · obtain ⟨h0, h1⟩ := twWeekend_rs inc _ h0 h1
    obtain ⟨h0, h1⟩ := twHolidays_rs inc _ h0 h1
    obtain ⟨h0, h1⟩ := twNewPolicy_rs (inc.toOrdinal - ps.toOrdinal) amount _ hA h0 h1
    exact twExpiry_rs (inc.toOrdinal - ps.toOrdinal) amount _ h0 h1

/-- With the incident strictly before the policy start, the timing check
hits the early return: score at least 0.95 and only the future-date
indicators can precede `incident_before_policy_start`. -/
theorem timingCore_before (ps inc : Date) (amount : ℚ) (today : Date)
    (h : inc.toOrdinal < ps.toOrdinal) :
    (timingCore ps inc amount today).1 =
        (twFuture ps inc today ⟨[], 0⟩).inds ++ ["incident_before_policy_start"] ∧
      0.95 ≤ (timingCore ps inc amount today).2 ∧
      (timingCore ps inc amount today).2 ≤ 1 := by
  obtain ⟨h0, h1⟩ := twFuture_rs ps inc today ⟨[], 0⟩ (le_refl 0) (by norm_num)
  unfold timingCore
  dsimp only
  rw [if_pos h]
  exact ⟨rfl, le_max_right _ _, max_le h1 (by norm_num)⟩

theorem checkClaimTiming_rs (c : ClaimData) (today : Date)
    (hA : 0 ≤ c.amount_claimed) :
    0 ≤ (checkClaimTiming c today).2 ∧ (checkClaimTiming c today).2 ≤ 1 := by
  unfold checkClaimTiming
  split_ifs
  · norm_num
  · cases c.policy_start_date with
    | missing => cases c.incident_date <;> norm_num
    | bad => cases c.incident_date <;> norm_num
    | good ps =>
      cases c.incident_date with
      | missing => norm_num
      | bad => norm_num
      | good inc => exact timingCore_rs ps inc c.amount_claimed today hA

/-! ## Bounds and provenance for the amount blocks -/

theorem amHigh_rs (amount : ℚ) (s : FState) (h0 : 0 ≤ s.rs) (h1 : s.rs ≤ 1) :
    0 ≤ (amHigh amount s).rs ∧ (amHigh amount s).rs ≤ 1 := by
  unfold amHigh
  split_ifs
  · exact ⟨le_max_of_le_right (by norm_num), max_le h1 (by norm_num)⟩
  · exact ⟨h0, h1⟩

theorem amHigh_inds (amount : ℚ) (s : FState) :
    ∀ t ∈ (amHigh amount s).inds, t ∈ s.inds ∨ AmountTag t := by
  intro t ht
  unfold amHigh at ht
  split_ifs at ht
  · rcases List.mem_append.mp ht with h | h
    · exact Or.inl h
    · exact Or.inr (Or.inl (by simp_all))
  · exact Or.inl ht

theorem amThreshold_rs (amount : ℚ) (ctype : String) (s : FState)
    (h0 : 0 ≤ s.rs) (h1 : s.rs ≤ 1) :
    0 ≤ (amThreshold amount ctype s).rs ∧ (amThreshold amount ctype s).rs ≤ 1 := by
  have hth := claimLimits_pos ctype.toLower
  unfold amThreshold
  dsimp only
  split_ifs with h
  · have hq : (1 : ℚ) < amount / claimLimits ctype.toLower :=
      (one_lt_div hth).mpr h
    constructor
    · exact le_min (by norm_num) (by nlinarith)
    · exact le_trans (min_le_left _ _) (by norm_num)
  · exact ⟨h0, h1⟩

theorem amThreshold_inds (amount : ℚ) (ctype : String) (s : FState) :
    ∀ t ∈ (amThreshold amount ctype s).inds, t ∈ s.inds ∨ AmountTag t := by
  intro t ht
  unfold amThreshold at ht
  dsimp only at ht
  split_ifs at ht
  · rcases List.mem_append.mp ht with h | h
    · exact Or.inl h
    · exact Or.inr (Or.inr ⟨ctype, by simpa using h⟩)
  · exact Or.inl ht

theorem amRound_rs (amount : ℚ) (s : FState) (h0 : 0 ≤ s.rs) (h1 : s.rs ≤ 1) :
    0 ≤ (amRound amount s).rs ∧ (amRound amount s).rs ≤ 1 := by
  unfold amRound
  split_ifs
  · exact ⟨min1_nonneg (add_nonneg h0 (by norm_num)), min1_le_one _⟩
  · exact ⟨h0, h1⟩

theorem amRound_inds (amount : ℚ) (s : FState) :
    ∀ t ∈ (amRound amount s).inds, t ∈ s.inds ∨ AmountTag t := by
  intro t ht
  unfold amRound at ht
  split_ifs at ht
  · rcases List.mem_append.mp ht with h | h
    · exact Or.inl h
    · exact Or.inr (Or.inl (by simp_all))
  · exact Or.inl ht

theorem vehicleValueRisk_inds (make modelName : String) (yr : ℤ) (a : ℚ)
    (today : Date) : ∀ t ∈ (vehicleValueRisk make modelName yr a today).1,
      t = "claim_exceeds_vehicle_value" := by
  intro t ht
  unfold vehicleValueRisk at ht
  dsimp only at ht
  split_ifs at ht
  · simpa using ht
  · simp at ht

theorem checkVehicleValue_inds (v : VehicleData) (a : ℚ) (today : Date) :
    ∀ t ∈ (checkVehicleValue v a today).1,
      t = "claim_exceeds_vehicle_value" ∨ t = "vehicle_value_calculation_error" := by
  intro t ht
  unfold checkVehicleValue at ht
  cases hy : v.year with
  | missing => rw [hy] at ht; exact Or.inl (vehicleValueRisk_inds _ _ _ _ _ t ht)
  | bad => rw [hy] at ht; exact Or.inr (by simpa using ht)
  | num n => rw [hy] at ht; exact Or.inl (vehicleValueRisk_inds _ _ _ _ _ t ht)

theorem amVehicle_rs (c : ClaimData) (today : Date) (s : FState)
    (h0 : 0 ≤ s.rs) (h1 : s.rs ≤ 1) :
    0 ≤ (amVehicle c today s).rs ∧ (amVehicle c today s).rs ≤ 1 := by
  unfold amVehicle
  rcases c.vehicle with _ | v
  · exact ⟨h0, h1⟩
  · dsimp only
    split_ifs
    · obtain ⟨hv0, hv1⟩ := checkVehicleValue_rs v c.amount_claimed today
      exact ⟨le_max_of_le_left h0, max_le h1 hv1⟩
    · exact ⟨h0, h1⟩

theorem amVehicle_inds (c : ClaimData) (today : Date) (s : FState) :
    ∀ t ∈ (amVehicle c today s).inds, t ∈ s.inds ∨ AmountTag t := by
  intro t ht
  unfold amVehicle at ht
  cases hv : c.vehicle with
  | none => rw [hv] at ht; exact Or.inl ht
  | some v =>
    rw [hv] at ht
    dsimp only at ht
    split_ifs at ht
    · rcases List.mem_append.mp ht with h | h
      · exact Or.inl h
      · rcases checkVehicleValue_inds v c.amount_claimed today t h with h' | h' <;>
          exact Or.inr (Or.inl (by simp_all))
    · exact Or.inl ht

theorem checkClaimAmount_rs (c : ClaimData) (today : Date) :
    0 ≤ (checkClaimAmount c today).2 ∧ (checkClaimAmount c today).2 ≤ 1 := by
  unfold checkClaimAmount
  dsimp only
  split_ifs
  · norm_num
  · obtain ⟨h0, h1⟩ := amHigh_rs c.amount_claimed ⟨[], 0⟩ (le_refl 0) (by norm_num)
    obtain ⟨h0, h1⟩ := amThreshold_rs c.amount_claimed c.claim_type _ h0 h1
    obtain ⟨h0, h1⟩ := amRound_rs c.amount_claimed _ h0 h1
    exact amVehicle_rs c today _ h0 h1

theorem checkClaimAmount_inds (c : ClaimData) (today : Date) :
    ∀ t ∈ (checkClaimAmount c today).1, AmountTag t := by
  intro t ht
  unfold checkClaimAmount at ht
  dsimp only at ht
  split_ifs at ht
  · exact Or.inl (by simp_all)
  · rcases amVehicle_inds c today _ t ht with h | h
    rcases amRound_inds c.amount_claimed _ t h with h' | h'
    rcases amThreshold_inds c.amount_claimed c.claim_type _ t h' with h'' | h''
    rcases amHigh_inds c.amount_claimed _ t h'' with h''' | h'''
    · simp at h'''
    all_goals assumption

/-! ## Bounds, monotonicity and provenance for the `process` blocks -/

theorem stepChecks_rs (c : ClaimData) (today : Date)
    (hA : 0 ≤ c.amount_claimed) :
    0 ≤ (stepChecks c today).rs ∧ (stepChecks c today).rs ≤ 1 := by
  obtain ⟨a0, a1⟩ := checkClaimAmount_rs c today
  obtain ⟨i0, i1⟩ := checkIncidentDetails_rs c
  obtain ⟨t0, t1⟩ := checkClaimTiming_rs c today hA
  unfold stepChecks
  dsimp only
  exact ⟨le_max_of_le_left (le_max_of_le_left (le_max_left 0 _)),
    max_le (max_le (max_le (by norm_num) a1) i1) t1⟩

theorem stepChecks_timing_le (c : ClaimData) (today : Date) :
    (checkClaimTiming c today).2 ≤ (stepChecks c today).rs := by
  unfold stepChecks
  dsimp only
  exact le_max_right _ _

theorem stepChecks_inds (c : ClaimData) (today : Date) :
    ∀ t ∈ (stepChecks c today).inds,
      AmountTag t ∨ IncidentTag t ∨ t ∈ (checkClaimTiming c today).1 := by
  intro t ht
  unfold stepChecks at ht
  dsimp only at ht
  rcases List.mem_append.mp ht with h | h
  · rcases List.mem_append.mp h with h' | h'
    · exact Or.inl (checkClaimAmount_inds c today t h')
    · exact Or.inr (Or.inl (checkIncidentDetails_inds c t h'))
  · exact Or.inr (Or.inr h)

theorem stepChecks_mem_timing (c : ClaimData) (today : Date) {t : String}
    (h : t ∈ (checkClaimTiming c today).1) : t ∈ (stepChecks c today).inds := by
  unfold stepChecks
  dsimp only
  exact List.mem_append_right _ h

theorem stepPrev_rs (c : ClaimData) (s : FState)
    (h0 : 0 ≤ s.rs) (h1 : s.rs ≤ 1) :
    s.rs ≤ (stepPrev c s).rs ∧ (stepPrev c s).rs ≤ 1 := by
  unfold stepPrev
  split_ifs with h
  · have hz : (0 : ℤ) ≤ min c.previous_claims 5 := le_min (le_of_lt h) (by norm_num)
    have hw : (0 : ℚ) ≤ min 0.5 (0.1 * ((min c.previous_claims 5 : ℤ) : ℚ)) := by
      refine le_min (by norm_num) (mul_nonneg (by norm_num) ?_)
      exact_mod_cast hz
    exact ⟨le_min1_add h1 hw, min1_le_one _⟩
  · exact ⟨le_refl _, h1⟩

theorem stepPrev_inds (c : ClaimData) (s : FState) :
    ∀ t ∈ (stepPrev c s).inds, t ∈ s.inds ∨ ProcTag t := by
  intro t ht
  unfold stepPrev at ht
  split_ifs at ht
  · rcases List.mem_append.mp ht with h | h
    · exact Or.inl h
    · exact Or.inr (Or.inr (Or.inl ⟨toString c.previous_claims, by simpa using h⟩))
  · exact Or.inl ht

theorem stepPrev_mono (c : ClaimData) (s : FState) {t : String}
    (h : t ∈ s.inds) : t ∈ (stepPrev c s).inds := by
  unfold stepPrev
  split_ifs
  · exact List.mem_append_left _ h
  · exact h

theorem stepRatio_rs (amount vv : ℚ) (s : FState)
    (h0 : 0 ≤ s.rs) (h1 : s.rs ≤ 1) :
    s.rs ≤ (stepRatio amount vv s).rs ∧ (stepRatio amount vv s).rs ≤ 1 := by
  unfold stepRatio
  dsimp only
  split_ifs with hv hB hR
  · have hw : (0 : ℚ) ≤ min 0.9 (0.4 + (min 5 (amount / vv) - 1.5) * 0.5) :=
      le_min (by norm_num) (by nlinarith)
    exact ⟨(le_min1_add h1 hw).trans (le_min1_add (min1_le_one _) (by norm_num)),
      min1_le_one _⟩
  · exact ⟨le_min1_add h1 (by norm_num), min1_le_one _⟩
  · have hw : (0 : ℚ) ≤ min 0.9 (0.4 + (min 5 (amount / vv) - 1.5) * 0.5) :=
      le_min (by norm_num) (by nlinarith)
    exact ⟨le_min1_add h1 hw, min1_le_one _⟩
  · exact ⟨le_refl _, h1⟩
  · exact ⟨le_refl _, h1⟩

theorem stepRatio_inds (amount vv : ℚ) (s : FState) :
    ∀ t ∈ (stepRatio amount vv s).inds, t ∈ s.inds ∨ ProcTag t := by
  intro t ht
  unfold stepRatio at ht
  dsimp only at ht
  split_ifs at ht
  · rcases List.mem_append.mp ht with h | h
    · rcases List.mem_append.mp h with h' | h'
      · exact Or.inl h'
      · exact Or.inr (Or.inr (Or.inr ⟨fmt1 (min 5 (amount / vv)) ++ "x",
          by simpa using h'⟩))
    · exact Or.inr (Or.inl (by simp_all))
  · rcases List.mem_append.mp ht with h | h
    · exact Or.inl h
    · exact Or.inr (Or.inl (by simp_all))
  · rcases List.mem_append.mp ht with h | h
    · exact Or.inl h
    · exact Or.inr (Or.inr (Or.inr ⟨fmt1 (min 5 (amount / vv)) ++ "x",
        by simpa using h⟩))
  · exact Or.inl ht
  · exact Or.inl ht

theorem stepRatio_mono (amount vv : ℚ) (s : FState) {t : String}
    (h : t ∈ s.inds) : t ∈ (stepRatio amount vv s).inds := by
  unfold stepRatio
  dsimp only
  split_ifs
  · exact List.mem_append_left _ (List.mem_append_left _ h)
  · exact List.mem_append_left _ h
  · exact List.mem_append_left _ h
  · exact h
  · exact h

theorem stepHighValue_rs (amount : ℚ) (s : FState)
    (h0 : 0 ≤ s.rs) (h1 : s.rs ≤ 1) :
    s.rs ≤ (stepHighValue amount s).rs ∧ (stepHighValue amount s).rs ≤ 1 := by
  unfold stepHighValue
  split_ifs
  · exact ⟨le_min1_add h1 (by norm_num), min1_le_one _⟩
  · exact ⟨le_min1_add h1 (by norm_num), min1_le_one _⟩
  · exact ⟨le_min1_add h1 (by norm_num), min1_le_one _⟩
  · exact ⟨le_refl _, h1⟩

theorem stepHighValue_inds (amount : ℚ) (s : FState) :
    ∀ t ∈ (stepHighValue amount s).inds, t ∈ s.inds ∨ ProcTag t := by
  intro t ht
  unfold stepHighValue at ht
  split_ifs at ht
  all_goals
    first
      | exact Or.inl ht
      | rcases List.mem_append.mp ht with h | h
  all_goals
    first
      | exact Or.inl h
      | exact Or.inr (Or.inl (by simp_all))

theorem stepHighValue_mono (amount : ℚ) (s : FState) {t : String}
    (h : t ∈ s.inds) : t ∈ (stepHighValue amount s).inds := by
  unfold stepHighValue
  split_ifs
  · exact List.mem_append_left _ h
  · exact List.mem_append_left _ h
  · exact List.mem_append_left _ h
  · exact h

theorem stepMinor_rs (amount : ℚ) (hasMinor : Bool) (s : FState)
    (h0 : 0 ≤ s.rs) (h1 : s.rs ≤ 1) :
    s.rs ≤ (stepMinor amount hasMinor s).rs ∧
      (stepMinor amount hasMinor s).rs ≤ 1 := by
  unfold stepMinor
  dsimp only
  have hm1 : s.rs ≤ max s.rs 0.4 := le_max_left _ _
  have hm2 : max s.rs 0.4 ≤ 1 := max_le h1 (by norm_num)
  have hb : max s.rs 0.4 ≤
      min1 (max (max s.rs 0.4) (0.4 + (0.3 + 0.6 * min 1 ((amount - 5000) / 10000)))) :=
    le_min hm2 (le_max_left _ _)
  split_ifs
  · exact ⟨hm1.trans (hb.trans (le_min (min1_le_one _) (le_max_left _ _))),
      min1_le_one _⟩
  · exact ⟨hm1.trans (hb.trans (le_min (min1_le_one _) (le_max_left _ _))),
      min1_le_one _⟩
  · exact ⟨hm1.trans hb, min1_le_one _⟩
  · exact ⟨hm1, hm2⟩
  · exact ⟨le_refl _, h1⟩

theorem stepMinor_inds (amount : ℚ) (hasMinor : Bool) (s : FState) :
    ∀ t ∈ (stepMinor amount hasMinor s).inds, t ∈ s.inds ∨ ProcTag t := by
  intro t ht
  unfold stepMinor at ht
  dsimp only at ht
  split_ifs at ht
  · rcases List.mem_append.mp ht with h | h
    · rcases List.mem_append.mp h with h' | h'
      · rcases List.mem_append.mp h' with h'' | h''
        · exact Or.inl h''
        · exact Or.inr (Or.inl (by simp_all))
      · exact Or.inr (Or.inl (by simp_all))
    · exact Or.inr (Or.inl (by simp_all))
  · rcases List.mem_append.mp ht with h | h
    · rcases List.mem_append.mp h with h' | h'
      · rcases List.mem_append.mp h' with h'' | h''
        · exact Or.inl h''
        · exact Or.inr (Or.inl (by simp_all))
      · exact Or.inr (Or.inl (by simp_all))
    · exact Or.inr (Or.inl (by simp_all))
  · rcases List.mem_append.mp ht with h | h
    · rcases List.mem_append.mp h with h' | h'
      · exact Or.inl h'
      · exact Or.inr (Or.inl (by simp_all))
    · exact Or.inr (Or.inl (by simp_all))
  · rcases List.mem_append.mp ht with h | h
    · exact Or.inl h
    · exact Or.inr (Or.inl (by simp_all))
  · exact Or.inl ht

theorem stepMinor_mono (amount : ℚ) (hasMinor : Bool) (s : FState) {t : String}
    (h : t ∈ s.inds) : t ∈ (stepMinor amount hasMinor s).inds := by
  unfold stepMinor
  dsimp only
  split_ifs
  · exact List.mem_append_left _ (List.mem_append_left _ (List.mem_append_left _ h))
  · exact List.mem_append_left _ (List.mem_append_left _ (List.mem_append_left _ h))
  · exact List.mem_append_left _ (List.mem_append_left _ h)
  · exact List.mem_append_left _ h
  · exact h

theorem stepParking_rs (amount : ℚ) (lower : String) (s : FState)
    (h0 : 0 ≤ s.rs) (h1 : s.rs ≤ 1) :
    s.rs ≤ (stepParking amount lower s).rs ∧
      (stepParking amount lower s).rs ≤ 1 := by
  unfold stepParking
  dsimp only
  split_ifs with hp h5
  · have hmin : (5000 : ℚ) ≤ min amount 100000 :=
      le_min (le_of_lt h5) (by norm_num)
    have hw : (0 : ℚ) ≤ min 0.6 (0.3 + (min amount 100000 - 5000) / 200000) :=
      le_min (by norm_num) (by linarith)
    exact ⟨le_min1_add h1 hw, min1_le_one _⟩
  · exact ⟨le_refl _, h1⟩
  · exact ⟨le_refl _, h1⟩

theorem stepParking_inds (amount : ℚ) (lower : String) (s : FState) :
    ∀ t ∈ (stepParking amount lower s).inds, t ∈ s.inds ∨ ProcTag t := by
  intro t ht
  unfold stepParking at ht
  dsimp only at ht
  split_ifs at ht
  · rcases List.mem_append.mp ht with h | h
    · rcases List.mem_append.mp h with h' | h'
      · exact Or.inl h'
      · exact Or.inr (Or.inl (by simp_all))
    · exact Or.inr (Or.inl (by simp_all))
  · rcases List.mem_append.mp ht with h | h
    · exact Or.inl h
    · exact Or.inr (Or.inl (by simp_all))
  · exact Or.inl ht

theorem stepParking_mono (amount : ℚ) (lower : String) (s : FState) {t : String}
    (h : t ∈ s.inds) : t ∈ (stepParking amount lower s).inds := by
  unfold stepParking
  dsimp only
  split_ifs
  · exact List.mem_append_left _ (List.mem_append_left _ h)
  · exact List.mem_append_left _ h
  · exact h

theorem stepVehicleAgain_rs (amount vv : ℚ) (s : FState)
    (h0 : 0 ≤ s.rs) (h1 : s.rs ≤ 1) :
    s.rs ≤ (stepVehicleAgain amount vv s).rs ∧
      (stepVehicleAgain amount vv s).rs ≤ 1 := by
  unfold stepVehicleAgain
  split_ifs
  · exact ⟨le_min1_add h1 (by norm_num), min1_le_one _⟩
  · exact ⟨le_refl _, h1⟩

theorem stepVehicleAgain_inds (amount vv : ℚ) (s : FState) :
    ∀ t ∈ (stepVehicleAgain amount vv s).inds, t ∈ s.inds ∨ ProcTag t := by
  intro t ht
  unfold stepVehicleAgain at ht
  split_ifs at ht
  · rcases List.mem_append.mp ht with h | h
    · exact Or.inl h
    · exact Or.inr (Or.inl (by simp_all))
  · exact Or.inl ht

theorem stepVehicleAgain_mono (amount vv : ℚ) (s : FState) {t : String}
    (h : t ∈ s.inds) : t ∈ (stepVehicleAgain amount vv s).inds := by
  unfold stepVehicleAgain
  split_ifs
  · exact List.mem_append_left _ h
  · exact h

theorem stepNewPolicy_rs (c : ClaimData) (s : FState)
    (hA : 0 ≤ c.amount_claimed) (h0 : 0 ≤ s.rs) (h1 : s.rs ≤ 1) :
    s.rs ≤ (stepNewPolicy c s).rs ∧ (stepNewPolicy c s).rs ≤ 1 := by
  unfold stepNewPolicy
  cases c.policy_start_date with
  | missing => exact ⟨le_refl _, h1⟩
  | bad => exact ⟨le_refl _, h1⟩
  | good ps =>
    cases c.incident_date with
    | missing => exact ⟨le_refl _, h1⟩
    | bad => exact ⟨le_refl _, h1⟩
    | good inc =>
      dsimp only
      split_ifs with hd h7
      all_goals
        try
          have hc : ((inc.toOrdinal - ps.toOrdinal : ℤ) : ℚ) ≤ 30 := by
            exact_mod_cast hd.2
      all_goals
        try
          have hw : (0 : ℚ) ≤ 0.3 * (1 - ((inc.toOrdinal - ps.toOrdinal : ℤ) : ℚ) / 30) := by
            nlinarith
      · exact ⟨(le_min1_add h1 hw).trans
          ((le_min1_add (min1_le_one _) (by norm_num)).trans
            (le_min1_add (min1_le_one _) (by norm_num))), min1_le_one _⟩
      · exact ⟨(le_min1_add h1 hw).trans
          (le_min1_add (min1_le_one _) (by norm_num)), min1_le_one _⟩
      · exact ⟨le_min1_add h1 hw, min1_le_one _⟩
      · exact ⟨le_refl _, h1⟩

theorem stepNewPolicy_inds (c : ClaimData) (s : FState) :
    ∀ t ∈ (stepNewPolicy c s).inds, t ∈ s.inds ∨
      t ∈ ["claim_within_30_days_of_policy_start", "claim_within_first_week",
           "high_risk_new_policy_claim"] := by
  intro t ht
  unfold stepNewPolicy at ht
  cases hps : c.policy_start_date with
  | missing => rw [hps] at ht; exact Or.inl ht
  | bad => rw [hps] at ht; exact Or.inl ht
  | good ps =>
    cases hid : c.incident_date with
    | missing => rw [hps, hid] at ht; exact Or.inl ht
    | bad => rw [hps, hid] at ht; exact Or.inl ht
    | good inc =>
      rw [hps, hid] at ht
      dsimp only at ht
      split_ifs at ht
      · rcases List.mem_append.mp ht with h | h
        · rcases List.mem_append.mp h with h' | h'
          · rcases List.mem_append.mp h' with h'' | h''
            · exact Or.inl h''
            · exact Or.inr (by simp_all)
          · exact Or.inr (by simp_all)
        · exact Or.inr (by simp_all)
      · rcases List.mem_append.mp ht with h | h
        · rcases List.mem_append.mp h with h' | h'
          · exact Or.inl h'
          · exact Or.inr (by simp_all)
        · exact Or.inr (by simp_all)
      · rcases List.mem_append.mp ht with h | h
        · exact Or.inl h
        · exact Or.inr (by simp_all)
      · exact Or.inl ht

theorem stepNewPolicy_mono (c : ClaimData) (s : FState) {t : String}
    (h : t ∈ s.inds) : t ∈ (stepNewPolicy c s).inds := by
  unfold stepNewPolicy
  cases c.policy_start_date with
  | missing => exact h
  | bad => exact h
  | good ps =>
    cases c.incident_date with
    | missing => exact h
    | bad => exact h
    | good inc =>
      dsimp only
      split_ifs
      · exact List.mem_append_left _ (List.mem_append_left _ (List.mem_append_left _ h))
      · exact List.mem_append_left _ (List.mem_append_left _ h)
      · exact List.mem_append_left _ h
      · exact h

/-- With the incident strictly before the policy start, block 8 of
`process` adds nothing: `days_since_start` is negative. -/
theorem stepNewPolicy_skip (c : ClaimData) (s : FState) {ps inc : Date}
    (hps : c.policy_start_date = .good ps) (hinc : c.incident_date = .good inc)
    (hlt : inc.toOrdinal < ps.toOrdinal) : stepNewPolicy c s = s := by
  unfold stepNewPolicy
  rw [hps, hinc]
  dsimp only
  rw [if_neg]
  rintro ⟨hge, -⟩
  omega

theorem stepSpecial_rs (amount : ℚ) (hasMinor : Bool) (s : FState)
    (h0 : 0 ≤ s.rs) (h1 : s.rs ≤ 1) :
    s.rs ≤ (stepSpecial amount hasMinor s).rs ∧
      (stepSpecial amount hasMinor s).rs ≤ 1 := by
  unfold stepSpecial
  dsimp only
  have he : min1 s.rs = s.rs := min_eq_right h1
  split_ifs
  · rw [he]
    exact ⟨le_max_left _ _, max_le h1 (by norm_num)⟩
  · rw [he]
    exact ⟨le_max_left _ _, max_le h1 (by norm_num)⟩
  · rw [he]
    exact ⟨le_refl _, h1⟩

theorem stepSpecial_inds (amount : ℚ) (hasMinor : Bool) (s : FState) :
    ∀ t ∈ (stepSpecial amount hasMinor s).inds, t ∈ s.inds ∨ ProcTag t := by
  intro t ht
  unfold stepSpecial at ht
  dsimp only at ht
  split_ifs at ht
  · exact Or.inl ht
  · rcases List.mem_append.mp ht with h | h
    · exact Or.inl h
    · exact Or.inr (Or.inl (by simp_all))
  · exact Or.inl ht

theorem stepSpecial_mono (amount : ℚ) (hasMinor : Bool) (s : FState) {t : String}
    (h : t ∈ s.inds) : t ∈ (stepSpecial amount hasMinor s).inds := by
  unfold stepSpecial
  dsimp only
  split_ifs
  · exact h
  · exact List.mem_append_left _ h
  · exact h

/-! ## Properties of the composed accumulation -/

theorem fraudAccum_props (c : ClaimData) (vv : ℚ) (today : Date)
    (hA : 0 ≤ c.amount_claimed) :
    0 ≤ (fraudAccum c vv today).rs ∧ (fraudAccum c vv today).rs ≤ 1 ∧
      (checkClaimTiming c today).2 ≤ (fraudAccum c vv today).rs := by
  have B0 := stepChecks_rs c today hA
  have B1 := stepPrev_rs c (stepChecks c today) B0.1 B0.2
  have C1 := B0.1.trans B1.1
  have B2 := stepRatio_rs c.amount_claimed vv _ C1 B1.2
  have C2 := C1.trans B2.1
  have B3 := stepHighValue_rs c.amount_claimed _ C2 B2.2
  have C3 := C2.trans B3.1
  have B4 := stepMinor_rs c.amount_claimed
    (hasMinorDamage c.incident_details.toLower) _ C3 B3.2
  have C4 := C3.trans B4.1
  have B5 := stepParking_rs c.amount_claimed c.incident_details.toLower _ C4 B4.2
  have C5 := C4.trans B5.1
  have B6 := stepVehicleAgain_rs c.amount_claimed vv _ C5 B5.2
  have C6 := C5.trans B6.1
  have B7 := stepNewPolicy_rs c _ hA C6 B6.2
  have C7 := C6.trans B7.1
  have B8 := stepSpecial_rs c.amount_claimed
    (hasMinorDamage c.incident_details.toLower) _ C7 B7.2
  have C8 := C7.trans B8.1
  have tle : (checkClaimTiming c today).2 ≤ (fraudAccum c vv today).rs := by
    have := (stepChecks_timing_le c today).trans
      (((((((B1.1.trans B2.1).trans B3.1).trans B4.1).trans B5.1).trans
        B6.1).trans B7.1).trans B8.1)
    unfold fraudAccum
    exact this
  refine ⟨?_, ?_, tle⟩
  · unfold fraudAccum
    exact C8
  · unfold fraudAccum
    exact B8.2

theorem fraudAccum_mem_timing (c : ClaimData) (vv : ℚ) (today : Date)
    {t : String} (h : t ∈ (checkClaimTiming c today).1) :
    t ∈ (fraudAccum c vv today).inds := by
  unfold fraudAccum
  exact stepSpecial_mono _ _ _
    (stepNewPolicy_mono _ _
      (stepVehicleAgain_mono _ _ _
        (stepParking_mono _ _ _
          (stepMinor_mono _ _ _
            (stepHighValue_mono _ _
              (stepRatio_mono _ _ _
                (stepPrev_mono _ _
                  (stepChecks_mem_timing c today h))))))))

theorem fraudAccum_inds (c : ClaimData) (vv : ℚ) (today : Date) :
    ∀ t ∈ (fraudAccum c vv today).inds,
      AmountTag t ∨ IncidentTag t ∨ t ∈ (checkClaimTiming c today).1 ∨
        ProcTag t ∨
        t ∈ ["claim_within_30_days_of_policy_start", "claim_within_first_week",
             "high_risk_new_policy_claim"] := by
  intro t ht
  unfold fraudAccum at ht
  rcases stepSpecial_inds _ _ _ t ht with h | h
  rcases stepNewPolicy_inds _ _ t h with h | h
  rcases stepVehicleAgain_inds _ _ _ t h with h | h
  rcases stepParking_inds _ _ _ t h with h | h
  rcases stepMinor_inds _ _ _ t h with h | h
  rcases stepHighValue_inds _ _ t h with h | h
  rcases stepRatio_inds _ _ _ t h with h | h
  rcases stepPrev_inds _ _ t h with h | h
  · rcases stepChecks_inds c today t h with h' | h' | h'
    · exact Or.inl h'
    · exact Or.inr (Or.inl h')
    · exact Or.inr (Or.inr (Or.inl h'))
  all_goals first
    | exact Or.inr (Or.inr (Or.inr (Or.inl h)))
    | exact Or.inr (Or.inr (Or.inr (Or.inr h)))

/-! ## Decomposing a successful fraud run -/

theorem fromDict_fields {raw : RawClaim} {c : ClaimData}
    (h : fromDict raw = .ok c) :
    0 ≤ c.amount_claimed ∧ c.policy_start_date = raw.policy_start_date ∧
      c.incident_date = raw.incident_date := by
  unfold fromDict at h
  cases hp : raw.previous_claims <;> rw [hp] at h <;>
    simp only [bind, Except.bind, pure] at h
  · cases h
    refine ⟨?_, rfl, rfl⟩
    cases raw.claim_amount with
    | missing => exact le_refl 0
    | bad => exact le_refl 0
    | num q =>
      dsimp only
      split_ifs with hq
      · exact le_refl 0
      · linarith
  · cases h
  · cases h
    refine ⟨?_, rfl, rfl⟩
    cases raw.claim_amount with
    | missing => exact le_refl 0
    | bad => exact le_refl 0
    | num q =>
      dsimp only
      split_ifs with hq
      · exact le_refl 0
      · linarith

theorem fraudBodyE_ok {raw : RawClaim} {today : Date}
    {res : PResult FraudResultData} (h : fraudBodyE raw today = .ok res) :
    ∃ c vv, fromDict raw = .ok c ∧
      estimateVehicleValueE c.vehicle today = .ok vv ∧
      res = { success := true, data := fraudAssemble c vv today, error := none } := by
  unfold fraudBodyE at h
  cases hfd : fromDict raw with
  | error e => rw [hfd] at h; simp only [bind, Except.bind] at h; cases h
  | ok c =>
    rw [hfd] at h
    simp only [bind, Except.bind] at h
    cases hev : estimateVehicleValueE c.vehicle today with
    | error e => rw [hev] at h; simp only at h; cases h
    | ok vv =>
      rw [hev] at h
      simp only [pure, Except.pure, Except.ok.injEq] at h
      exact ⟨c, vv, rfl, hev, h.symm⟩

/-! ## The timing indicators excluded by the early return -/

/-- The timing indicators (and their variants) that must be absent when the
incident predates the policy start. -/
theorem c5Excluded_not_other : ∀ t ∈ c5ExcludedTags,
    ¬(AmountTag t ∨ IncidentTag t ∨ ProcTag t ∨
      t = "future_policy_start_date" ∨ t = "future_incident_date" ∨
      t = "incident_before_policy_start") := by
  intro t ht
  fin_cases ht <;>
    rintro ((h | h) | (h | h | h) | (h | h | h) | h | h | h) <;>
      first
        | exact absurd h (by decide)
        | exact not_famTag_of_take (by decide) h

/-- Membership decomposition of the accumulated indicators when block 8 is
skipped by a negative `days_since_start`. -/
theorem fraudAccum_inds_early (c : ClaimData) (vv : ℚ) (today : Date)
    {ps inc : Date} (hps : c.policy_start_date = .good ps)
    (hinc : c.incident_date = .good inc) (hlt : inc.toOrdinal < ps.toOrdinal) :
    ∀ t ∈ (fraudAccum c vv today).inds,
      AmountTag t ∨ IncidentTag t ∨ t ∈ (checkClaimTiming c today).1 ∨
        ProcTag t := by
  intro t ht
  unfold fraudAccum at ht
  dsimp only at ht
  rw [stepNewPolicy_skip c _ hps hinc hlt] at ht
  rcases stepSpecial_inds _ _ _ t ht with h | h
  rcases stepVehicleAgain_inds _ _ _ t h with h | h
  rcases stepParking_inds _ _ _ t h with h | h
  rcases stepMinor_inds _ _ _ t h with h | h
  rcases stepHighValue_inds _ _ t h with h | h
  rcases stepRatio_inds _ _ _ t h with h | h
  rcases stepPrev_inds _ _ t h with h | h
  · rcases stepChecks_inds c today t h with h' | h' | h'
    · exact Or.inl h'
    · exact Or.inr (Or.inl h')
    · exact Or.inr (Or.inr (Or.inl h'))
  all_goals exact Or.inr (Or.inr (Or.inr h))

theorem checkClaimTiming_good {c : ClaimData} {ps inc : Date} (today : Date)
    (hps : c.policy_start_date = .good ps) (hinc : c.incident_date = .good inc) :
    checkClaimTiming c today = timingCore ps inc c.amount_claimed today := by
  unfold checkClaimTiming
  rw [hps, hinc, if_neg (by simp)]

/-- The `fraud_analysis` of a successful run, in terms of the accumulated
state. -/
theorem fraudAssemble_fa (c : ClaimData) (vv : ℚ) (today : Date) {fa : FraudAnalysisRec}
    (hfa : (fraudAssemble c vv today).fraud_analysis = some fa) :
    fa = { risk_score := pyRound 4 (fraudAccum c vv today).rs
           fraud_indicators := sortedDedup (fraudAccum c vv today).inds
           needs_review := (recommend (fraudAccum c vv today).rs).1
           recommendation := (recommend (fraudAccum c vv today).rs).2 } := by
  unfold fraudAssemble at hfa
  dsimp only at hfa
  exact (Option.some.inj hfa).symm

/-- The `risk_assessment` of a successful run. -/
theorem fraudAssemble_ra (c : ClaimData) (vv : ℚ) (today : Date) {ra : RiskAssessment}
    (hra : (fraudAssemble c vv today).risk_assessment = some ra) :
    ra = { risk_score := pyRound 2 (fraudAccum c vv today).rs
           requires_manual_review :=
             decide (0.8 ≤ (fraudAccum c vv today).rs) ||
               (fraudAccum c vv today).inds.any
                 (fun i => specialIndicators.contains i) } := by
  unfold fraudAssemble at hra
  dsimp only at hra
  exact (Option.some.inj hra).symm

/-- **C5.**  For every claim whose `policy_start_date` and `incident_date`
both parse as dates with the incident strictly before the policy start, a
completing fraud run reports `risk_score ≥ 0.95`, the indicator
`incident_before_policy_start`, and none of the other timing indicators
(weekend, holiday windows, new-policy windows, policy-expiry windows or
their variants). -/
theorem C5_incident_before_policy_start
    (raw : RawClaim) (today : Date) (res : PResult FraudResultData)
    (fa : FraudAnalysisRec) (ps inc : Date)
    (hrun : fraudBodyE raw today = Except.ok res)
    (hps : raw.policy_start_date = .good ps)
    (hinc : raw.incident_date = .good inc)
    (hlt : inc.toOrdinal < ps.toOrdinal)
    (hfa : res.data.fraud_analysis = some fa) :
    0.95 ≤ fa.risk_score ∧
      "incident_before_policy_start" ∈ fa.fraud_indicators ∧
      ∀ t ∈ c5ExcludedTags, t ∉ fa.fraud_indicators := by
  obtain ⟨c, vv, hc, hv, hres⟩ := fraudBodyE_ok hrun
  obtain ⟨hA, hcps, hcinc⟩ := fromDict_fields hc
  have hps' : c.policy_start_date = .good ps := hcps.trans hps
  have hinc' : c.incident_date = .good inc := hcinc.trans hinc
  subst hres
  have hfa2 := fraudAssemble_fa c vv today hfa
  subst hfa2
  have htg := checkClaimTiming_good today hps' hinc'
  obtain ⟨hpre, h95, hle1⟩ := timingCore_before ps inc c.amount_claimed today hlt
  obtain ⟨hnn, hub, htle⟩ := fraudAccum_props c vv today hA
  refine ⟨?_, ?_, ?_⟩
  · dsimp only
    have : (0.95 : ℚ) ≤ (fraudAccum c vv today).rs := by
      rw [htg] at htle
      linarith
    exact pyRound_ge 4 this ⟨9500, by norm_num⟩
  · dsimp only
    rw [mem_sortedDedup]
    apply fraudAccum_mem_timing
    rw [htg, hpre]
    exact List.mem_append_right _ (List.mem_singleton.mpr rfl)
  · intro t ht
    dsimp only
    rw [mem_sortedDedup]
    intro hmem
    rcases fraudAccum_inds_early c vv today hps' hinc' hlt t hmem with h | h | h | h
    · exact c5Excluded_not_other t ht (Or.inl h)
    · exact c5Excluded_not_other t ht (Or.inr (Or.inl h))
    · rw [htg, hpre] at h
      rcases List.mem_append.mp h with h' | h'
      · rcases twFuture_inds ps inc today ⟨[], 0⟩ t h' with h'' | h'' | h''
        · simp at h''
        · exact c5Excluded_not_other t ht (Or.inr (Or.inr (Or.inr (Or.inl h''))))
        · exact c5Excluded_not_other t ht
            (Or.inr (Or.inr (Or.inr (Or.inr (Or.inl h'')))))
      · exact c5Excluded_not_other t ht
          (Or.inr (Or.inr (Or.inr (Or.inr (Or.inr (List.mem_singleton.mp h'))))))
    · exact c5Excluded_not_other t ht (Or.inr (Or.inr (Or.inl h)))

/-- **C7.**  On every completing fraud run, `risk_score` lies in `[0, 1]`
and `fraud_indicators` is duplicate-free and sorted. -/
theorem C7_risk_bounds_and_dedup
    (raw : RawClaim) (today : Date) (res : PResult FraudResultData)
    (fa : FraudAnalysisRec)
    (hrun : fraudBodyE raw today = Except.ok res)
    (hfa : res.data.fraud_analysis = some fa) :
    0 ≤ fa.risk_score ∧ fa.risk_score ≤ 1 ∧
      fa.fraud_indicators.Nodup ∧ fa.fraud_indicators.Sorted (· ≤ ·) := by
  obtain ⟨c, vv, hc, hv, hres⟩ := fraudBodyE_ok hrun
  obtain ⟨hA, -, -⟩ := fromDict_fields hc
  subst hres
  have hfa2 := fraudAssemble_fa c vv today hfa
  subst hfa2
  obtain ⟨hnn, hub, -⟩ := fraudAccum_props c vv today hA
  obtain ⟨hr0, hr1⟩ := pyRound_bounds 4 hnn hub
  exact ⟨hr0, hr1, sortedDedup_nodup _, sortedDedup_sorted _⟩

/-- **C4 (amended).**  On a completing fraud run the `needs_review` field of
the `fraud_analysis` is true exactly when the pre-rounding risk score is at
least 0.4 (equivalently: when the recommendation is not `approve`); the
`risk_score ≥ 0.8 ∨ special indicator` rule instead computes the separate
`requires_manual_review` flag of the sibling `risk_assessment`. -/
theorem C4_needs_review_amended
    (raw : RawClaim) (today : Date) (res : PResult FraudResultData)
    (fa : FraudAnalysisRec) (ra : RiskAssessment)
    (hrun : fraudBodyE raw today = Except.ok res)
    (hfa : res.data.fraud_analysis = some fa)
    (hra : res.data.risk_assessment = some ra) :
    ∃ c vv, fromDict raw = Except.ok c ∧
      estimateVehicleValueE c.vehicle today = Except.ok vv ∧
      (fa.needs_review = true ↔ 0.4 ≤ (fraudAccum c vv today).rs) ∧
      (fa.needs_review = true ↔ fa.recommendation ≠ "approve") ∧
      (ra.requires_manual_review = true ↔
        (0.8 ≤ (fraudAccum c vv today).rs ∨
          ∃ t ∈ (fraudAccum c vv today).inds, t ∈ specialIndicators)) := by
  obtain ⟨c, vv, hc, hv, hres⟩ := fraudBodyE_ok hrun
  subst hres
  have hfa2 := fraudAssemble_fa c vv today hfa
  have hra2 := fraudAssemble_ra c vv today hra
  subst hfa2
  subst hra2
  refine ⟨c, vv, hc, hv, ?_, ?_, ?_⟩
  · dsimp only
    unfold recommend
    split_ifs with h9 h7 h4 <;>
      simp only [true_iff, false_iff, not_le] <;>
      linarith
  · dsimp only
    unfold recommend
    split_ifs <;> simp
  · dsimp only
    simp only [Bool.or_eq_true, decide_eq_true_eq, List.any_eq_true]
    constructor
    · rintro (h | ⟨i, hi, hc'⟩)
      · exact Or.inl h
      · exact Or.inr ⟨i, hi, by simpa using hc'⟩
    · rintro (h | ⟨i, hi, hc'⟩)
      · exact Or.inl h
      · exact Or.inr ⟨i, hi, by simpa using hc'⟩

/-- **C10.**  `FraudCheckAgent.process` never lets an exception escape: the
outer handler converts every internal fault into the fail-closed
`ProcessingResult`, so the awaited task outcome is always a result and the
coordinator's `isinstance(..., Exception)` branch is unreachable for this
agent. -/
theorem C10_fraud_process_total (raw : RawClaim) (today : Date) :
    ∃ r, fraudProcessE raw today = Except.ok r := by
  unfold fraudProcessE
  cases fraudBodyE raw today
  · exact ⟨_, rfl⟩
  · exact ⟨_, rfl⟩

/-- Witness for C4: the clean run of `baseRaw` satisfies the amended
equivalences. -/
theorem C4_needs_review_amended_witness :
    ∃ c vv, fromDict baseRaw = Except.ok c ∧
      estimateVehicleValueE c.vehicle t0 = Except.ok vv ∧
      ((faOf baseRaw t0).needs_review = true ↔ 0.4 ≤ (fraudAccum c vv t0).rs) ∧
      ((faOf baseRaw t0).needs_review = true ↔
        (faOf baseRaw t0).recommendation ≠ "approve") ∧
      ((raOf baseRaw t0).requires_manual_review = true ↔
        (0.8 ≤ (fraudAccum c vv t0).rs ∨
          ∃ t ∈ (fraudAccum c vv t0).inds, t ∈ specialIndicators)) :=
  C4_needs_review_amended baseRaw t0 (fraudRunOf baseRaw t0) (faOf baseRaw t0)
    (raOf baseRaw t0) (by with_unfolding_all rfl) (by with_unfolding_all rfl)
    (by with_unfolding_all rfl)

/-- Counterexample to the literal C4 rule: on `c2raw` the published
`fraud_analysis` has `needs_review = true` while its `risk_score` is 0.6
(< 0.8) and none of its indicators is a special indicator. -/
theorem C4_spec_rule_counterexample :
    (faOf c2raw t0).needs_review = true ∧
    (faOf c2raw t0).risk_score = 0.6 ∧
    ¬(0.8 ≤ (faOf c2raw t0).risk_score) ∧
    (∀ t ∈ (faOf c2raw t0).fraud_indicators, t ∉ specialIndicators) := by
  have hr : (faOf c2raw t0).risk_score = 0.6 := by with_unfolding_all rfl
  have hi : (faOf c2raw t0).fraud_indicators =
      ["suspicious_phrase_strange", "suspicious_phrase_unknown"] := by
    with_unfolding_all rfl
  refine ⟨by with_unfolding_all rfl, hr, ?_, ?_⟩
  · rw [hr]; norm_num
  · rw [hi]; decide

/-- Witness for C5: incident 2025-01-01 against policy start 2025-06-01. -/
theorem C5_incident_before_policy_start_witness :
    0.95 ≤ (faOf w5raw t0).risk_score ∧
      "incident_before_policy_start" ∈ (faOf w5raw t0).fraud_indicators ∧
      ∀ t ∈ c5ExcludedTags, t ∉ (faOf w5raw t0).fraud_indicators :=
  C5_incident_before_policy_start w5raw t0 (fraudRunOf w5raw t0) (faOf w5raw t0)
    ⟨2025, 6, 1⟩ ⟨2025, 1, 1⟩ (by with_unfolding_all rfl) rfl rfl (by decide)
    (by with_unfolding_all rfl)

/-- Witness for C7 on the clean run of `baseRaw`. -/
theorem C7_risk_bounds_and_dedup_witness :
    0 ≤ (faOf baseRaw t0).risk_score ∧ (faOf baseRaw t0).risk_score ≤ 1 ∧
      (faOf baseRaw t0).fraud_indicators.Nodup ∧
      (faOf baseRaw t0).fraud_indicators.Sorted (· ≤ ·) :=
  C7_risk_bounds_and_dedup baseRaw t0 (fraudRunOf baseRaw t0) (faOf baseRaw t0)
    (by with_unfolding_all rfl) (by with_unfolding_all rfl)

/-- **C1 (divergence).**  On `c1raw` the fraud agent fails internally
(`from_dict` raises), `process` returns the fail-closed payload — but its
`data` has no `fraud_analysis` key, so the coordinator substitutes the
benign defaults: the pipeline observes risk 0, `needs_review = false`, no
indicators, and approves the claim.  The fraud check fails open, not
closed. -/
theorem C1_fraud_failure_fail_open :
    fraudBodyE c1raw t0 = Except.error () ∧
    fraudProcessE c1raw t0 = Except.ok failClosedResult ∧
    (processClaim c1raw t0 "a" "b" "c").steps.map (fun s => s.fraud_check) =
      some ⟨0, false, [], some "approve", none⟩ ∧
    (processClaim c1raw t0 "a" "b" "c").status = "approved" :=
  ⟨by with_unfolding_all rfl, by with_unfolding_all rfl,
   by with_unfolding_all rfl, by with_unfolding_all rfl⟩

/-- **C2 (divergence).**  On `c2raw` the fraud analysis has
`needs_review = true`, yet the payout estimator still emits a
`PayoutEstimate` of 3000: its review gate reads
`fraud_analysis['risk_assessment']['requires_manual_review']`, a key the
coordinator never passes, so the gate never fires. -/
theorem C2_review_gate_never_fires :
    (fraudRunOf c2raw t0).data.fraud_analysis =
      some ⟨0.6, ["suspicious_phrase_strange", "suspicious_phrase_unknown"],
            true, "review_recommended"⟩ ∧
    ((processClaim c2raw t0 "a" "b" "c").steps.map
        (fun s => s.fraud_check.needs_review)) = some true ∧
    ((processClaim c2raw t0 "a" "b" "c").steps.map
        (fun s => s.payout_estimation.map (fun e => e.approved_amount))) =
      some (some 3000) :=
  ⟨by with_unfolding_all rfl, by with_unfolding_all rfl, by with_unfolding_all rfl⟩

/-- Counterexample to the four-value status set of C3: on `c3raw` (one weak
indicator, risk 0.2, zero payout) no decision branch fires and the result
keeps the initial status `processing`. -/
theorem C3_processing_status_counterexample :
    (processClaim c3raw t0 "a" "b" "c").status = "processing" ∧
      "processing" ∉ ["approved", "rejected", "requires_review", "error"] :=
  ⟨by with_unfolding_all rfl, by decide⟩

/-- **C3 (amended).**  Every pipeline result carries one of five statuses:
the four documented ones plus the initial `processing`, which survives when
indicators are present but no decision rule fires. -/
theorem C3_status_values_amended (raw : RawClaim) (today : Date)
    (f1 f2 f3 : String) :
    (processClaim raw today f1 f2 f3).status ∈
      ["approved", "rejected", "requires_review", "error", "processing"] := by
  unfold processClaim
  dsimp only
  split
  · simp [errorResult]
  · split_ifs <;> simp [errorResult]

/-- **C6.**  For a valid, covered, non-reviewed payout request the
estimate follows the deductible formula over the coverage-limit table,
in USD. -/
theorem C6_payout_formula (g : IngestedClaim) (p : PayoutPolicyArg)
    (f : PayoutFraudArg) (hv : p.is_valid = true)
    (hc : p.claim_type_covered = true)
    (hnr : (f.risk_assessment.map (·.requires_manual_review)).getD false = false) :
    ∃ est : PayoutEstimate,
      (payoutProcess ⟨some g, some p, some f⟩).success = true ∧
      (payoutProcess ⟨some g, some p, some f⟩).data.payout_estimation = some est ∧
      est.approved_amount =
        pyRound 2 (max 0 (min g.amount_claimed (maxPayouts g.claim_type.toLower) - 500)) ∧
      est.deductible_applied = min 500 g.amount_claimed ∧
      est.currency = "USD" ∧
      est.original_claim_amount = g.amount_claimed ∧
      est.claim_id = g.claim_id := by
  unfold payoutProcess
  dsimp only
  rw [if_neg, if_neg]
  · exact ⟨_, rfl, rfl, rfl, rfl, rfl, rfl, rfl⟩
  · simp [hnr]
  · simp [hv, hc]

/-- Witness for C6: an auto claim of 3500 is approved at 3000. -/
theorem C6_payout_formula_witness :
    ∃ est : PayoutEstimate,
      (payoutProcess ⟨some w6g, some ⟨true, true⟩, some ⟨0, false, [], none⟩⟩).success = true ∧
      (payoutProcess ⟨some w6g, some ⟨true, true⟩, some ⟨0, false, [], none⟩⟩).data.payout_estimation = some est ∧
      est.approved_amount =
        pyRound 2 (max 0 (min w6g.amount_claimed (maxPayouts w6g.claim_type.toLower) - 500)) ∧
      est.deductible_applied = min 500 w6g.amount_claimed ∧
      est.currency = "USD" ∧
      est.original_claim_amount = w6g.amount_claimed ∧
      est.claim_id = w6g.claim_id :=
  C6_payout_formula w6g ⟨true, true⟩ ⟨0, false, [], none⟩ rfl rfl rfl

/-- **C8 (divergence).**  With policy number `ABC-1` the validation agent
itself would report `is_valid = false` (first conjunct, applying it to the
ingested claim the coordinator actually built) — but the coordinator calls
it on the wrong dictionary, records an empty validation, defaults
`is_valid` to true for the payout, and approves the claim at 3000. -/
theorem C8_invalid_policy_still_approved :
    ((processClaim c8raw t0 "a" "b" "c").steps.map
        (fun s => (policyProcess (some s.data_ingestion)).data.map
          (fun r => r.is_valid))) = some (some false) ∧
    (processClaim c8raw t0 "a" "b" "c").steps.map (fun s => s.policy_validation) =
      some none ∧
    (processClaim c8raw t0 "a" "b" "c").status = "approved" ∧
    (processClaim c8raw t0 "a" "b" "c").approved_amount = some 3000 :=
  ⟨by with_unfolding_all rfl, by with_unfolding_all rfl,
   by with_unfolding_all rfl, by with_unfolding_all rfl⟩

/-- **C9.**  With a non-empty claim id supplied, the pipeline result does
not depend on the drawn uuid suffixes: two runs with the same input and
the same `now` agree exactly. -/
theorem C9_pipeline_deterministic (raw : RawClaim) (today : Date)
    (f1 f2 f3 g1 g2 g3 s : String)
    (hid : raw.claim_id = some s) (hne : s ≠ "") :
    processClaim raw today f1 f2 f3 = processClaim raw today g1 g2 g3 := by
  unfold processClaim
  rw [hid]
  simp only [Option.getD_some, if_neg hne]

/-- Witness for C9: two runs of `baseRaw` with different uuid draws. -/
theorem C9_pipeline_deterministic_witness :
    processClaim baseRaw t0 "a" "b" "c" = processClaim baseRaw t0 "x" "y" "z" :=
  C9_pipeline_deterministic baseRaw t0 "a" "b" "c" "x" "y" "z" "CLAIM-1" rfl
    (by decide)

end Ins
